/-
  Verification of the Estate Stage Pro backend (src/backend/main.py) against its
  natural-language specification.

  The Python code is shallowly embedded: dictionaries with a fixed set of keys
  read by the code become structures whose fields are `Option`-valued (a `none`
  field models an absent key); every structure that the code tests for Python
  truthiness (`if d:`) additionally carries an `extra : Bool` field recording
  whether the underlying dict holds keys beyond the modelled ones (such keys
  influence only truthiness, as the code never reads them).  Fallible code
  (Python exceptions) is embedded in `Except PyExc`.  String formatting follows
  the source f-strings piece by piece.
-/
import Mathlib

namespace EstateStagePro

/-! ## Generic string containment

`seqContains n h` decides whether the character list `n` occurs contiguously
inside `h`; `strContains needle hay` is the string version.  These are used to
state "the compiled prompt contains / does not contain phrase X". -/

/-- Does `n` occur as a contiguous sub-list of `h`? -/
def seqContains (n : List Char) : List Char → Bool
  | [] => n.isEmpty
  | c :: t => n.isPrefixOf (c :: t) || seqContains n t

/-- Does `needle` occur as a contiguous substring of `hay`? -/
def strContains (needle hay : String) : Bool :=
  seqContains needle.toList hay.toList

/-- The string is empty or starts with a newline.  Every scene-context
section has this shape, which lets occurrences of newline-free needles be
located section by section. -/
def headNl (s : String) : Prop :=
  s.toList = [] ∨ ∃ t, s.toList = '\n' :: t

/-- Decidable check for `headNl`. -/
def headNlB (s : String) : Bool :=
  s.toList.isEmpty || (s.toList.headD ' ' == '\n')

/-! ## Kernel-reducible string primitives

`str.lower()`, `str.upper()`, `str.endswith(...)` and `sep.join(...)` of the
source, implemented over the character list so that concrete evaluation
reduces (the core `String` versions loop over byte positions). -/

/-- Python `str.lower()` (per-character basic-latin lowering, as
`String.toLower`). -/
def strLower (s : String) : String :=
  String.mk (s.data.map Char.toLower)

/-- Python `str.upper()`. -/
def strUpper (s : String) : String :=
  String.mk (s.data.map Char.toUpper)

/-- Python `str.endswith(suffix)`. -/
def strEndsWith (s suffix : String) : Bool :=
  suffix.toList.isSuffixOf s.toList

/-- Python `sep.join(parts)` (as `String.intercalate`). -/
def pyJoin (sep : String) : List String → String
  | [] => ""
  | [x] => x
  | x :: xs => x ++ sep ++ pyJoin sep xs

/-! ## Style and room catalogs (main.py lines 31-49) -/

/-- Python `d.get(key, default)` over an association list modelling a dict
literal with string keys and values. -/
def dictGet (m : List (String × String)) (k dflt : String) : String :=
  match m.find? (fun p => p.1 == k) with
  | some p => p.2
  | none => dflt

/-- ROOM_CONTEXT dict (main.py lines 31-41). -/
def ROOM_CONTEXT : List (String × String) :=
  [("LIVING", "living room - welcoming conversation area"),
   ("KITCHEN", "kitchen - functional with warmth"),
   ("DINING", "dining room - inviting entertainment space"),
   ("LIVING_DINING", "open-concept living/dining - defined zones with flow"),
   ("BEDROOM", "bedroom - serene retreat"),
   ("MASTER_BEDROOM", "master bedroom - luxury and relaxation"),
   ("OFFICE", "home office - productive and stylish"),
   ("KID_BEDROOM", "child\x27s bedroom - fun and functional"),
   ("NURSERY", "nursery - safe and soothing")]

/-- STYLE_CONTEXT dict (main.py lines 43-49). -/
def STYLE_CONTEXT : List (String × String) :=
  [("MODERN", "Modern: Clean lines, neutral palette, functional furniture, glass/steel/concrete"),
   ("LUXE", "Luxury: Rich textures, statement pieces, marble, velvet, brass accents"),
   ("SCANDINAVIAN", "Scandinavian: Light woods, white tones, cozy textiles, hygge"),
   ("INDUSTRIAL", "Industrial: Exposed brick, metal/wood, earth tones, Edison bulbs"),
   ("FARMHOUSE", "Farmhouse: Shiplap, rustic wood, neutral palette, vintage accessories")]

/-! ## Media sniffing (main.py lines 83-89, 305-311, 664-670)

`filename.lower()` / `endswith` suffix checks selecting a MIME type. -/

/-- MIME selection from a filename, exactly as in the source:
lowercase, then test the `.png` and `.webp` suffixes, else JPEG. -/
def sniffMime (filename : String) : String :=
  let f := strLower filename
  if strEndsWith f ".png" then "image/png"
  else if strEndsWith f ".webp" then "image/webp"
  else "image/jpeg"

/-! ## Aspect-ratio validation (main.py lines 326-329) -/

/-- The allow-list `valid_ratios` (main.py line 327). -/
def validRatios : List String :=
  ["1:1", "2:3", "3:2", "3:4", "4:3", "4:5", "5:4", "9:16", "16:9", "21:9"]

/-- `if aspect_ratio not in valid_ratios: aspect_ratio = '4:3'` (lines 328-329). -/
def normalizeAspectRatio (aspect_ratio : String) : String :=
  if validRatios.contains aspect_ratio then aspect_ratio else "4:3"

/-! ## Scene-analysis data model

The external vision model returns a JSON object; the compiler reads it through
`.get(key, default)` chains.  JSON leaves that may be either a string or a
number are modelled by `JVal`; every dict whose Python truthiness the code
tests carries an `extra : Bool` flag for unmodelled keys. -/

/-- A scalar JSON leaf as rendered into an f-string: either a string or an
integer (floats and other leaf shapes are outside the modelled universe). -/
inductive JVal where
  | jstr (s : String)
  | jint (n : Int)

/-- How a `JVal` prints inside an f-string (`str` of the value). -/
def JVal.render : JVal → String
  | .jstr s => s
  | .jint n => toString n

/-- Python truthiness of a `JVal` (empty string and zero are falsy). -/
def JVal.truthy : JVal → Bool
  | .jstr s => s ≠ ""
  | .jint n => n ≠ 0

/-- Truthiness of `d.get(k)` for an optional `JVal` field: absent is falsy. -/
def optTruthy : Option JVal → Bool
  | some v => v.truthy
  | none => false

/-- Truthiness of `d.get(k, '')` for an optional string field. -/
def optStrTruthy : Option String → Bool
  | some s => s ≠ ""
  | none => false

/-- `width` / `length` / `ceiling_height` sub-dicts of `room_dimensions`. -/
structure DimEstimate where
  estimate_feet : Option Int
  estimate_range : Option String

/-- `room_dimensions` sub-record (read at main.py lines 344-353). -/
structure RoomDimensions where
  width : Option DimEstimate
  length : Option DimEstimate
  ceiling_height : Option DimEstimate
  total_floor_area_sqft : Option Int
  extra : Bool

/-- Python truthiness of the `room_dimensions` dict: some key is present. -/
def RoomDimensions.truthy (d : RoomDimensions) : Bool :=
  d.width.isSome || d.length.isSome || d.ceiling_height.isSome ||
    d.total_floor_area_sqft.isSome || d.extra

/-- `perspective_analysis` sub-record (main.py lines 356-362). -/
structure Perspective where
  camera_height : Option String
  camera_angle : Option String
  lens_type : Option String
  vanishing_point_location : Option String
  extra : Bool

def Perspective.truthy (p : Perspective) : Bool :=
  p.camera_height.isSome || p.camera_angle.isSome || p.lens_type.isSome ||
    p.vanishing_point_location.isSome || p.extra

/-- A foreground/midground/background zone of `depth_mapping`. -/
structure DepthZone where
  depth_range : Option String
  floor_area_percentage : Option Int
  suitable_for : Option (List String)
  extra : Bool

def DepthZone.truthy (z : DepthZone) : Bool :=
  z.depth_range.isSome || z.floor_area_percentage.isSome ||
    z.suitable_for.isSome || z.extra

/-- `depth_mapping` sub-record (main.py lines 365-380). -/
structure DepthMapping where
  total_depth_estimate : Option String
  foreground_zone : Option DepthZone
  midground_zone : Option DepthZone
  background_zone : Option DepthZone
  extra : Bool

def DepthMapping.truthy (d : DepthMapping) : Bool :=
  d.total_depth_estimate.isSome || d.foreground_zone.isSome ||
    d.midground_zone.isSome || d.background_zone.isSome || d.extra

/-- A per-item entry of `furniture_sizing_guide` (main.py lines 386-405). -/
structure SizingSpec where
  recommended_width_inches : Option JVal
  recommended_length_inches : Option JVal
  recommended_depth_inches : Option JVal
  recommended_size : Option JVal
  recommended_height_inches : Option JVal
  recommended_diameter_inches : Option JVal
  placement : Option String

/-- A value of the `furniture_sizing_guide` dict: a spec dict, or any non-dict
value (which the code skips via `isinstance(specs, dict)`). -/
inductive SizingVal where
  | spec (s : SizingSpec)
  | nonDict

/-- A `doorways` list element (main.py lines 410-416). -/
structure Doorway where
  location : Option String
  type : Option String
  width_inches : Option Int
  clearance_needed_inches : Option Int
  depth_from_camera_feet : Option JVal

/-- A `windows` list element (main.py lines 421-428). -/
structure Window where
  location : Option String
  type : Option String
  width_inches : Option Int
  height_inches : Option Int
  natural_light_contribution : Option String
  depth_from_camera_feet : Option JVal

/-- The `fireplace` sub-dict of `architectural_features`. -/
structure Fireplace where
  present : Option Bool
  location : Option String
  width_inches : Option Int
  depth_from_camera_feet : Option JVal

/-- `architectural_features` sub-record (main.py lines 431-445). -/
structure ArchFeatures where
  ceiling : Option String
  ceiling_height_inches : Option Int
  flooring : Option String
  flooring_color : Option String
  floor_pattern : Option String
  walls : Option String
  wall_color : Option String
  baseboard_height_inches : Option JVal
  fireplace : Option Fireplace
  extra : Bool

def ArchFeatures.truthy (a : ArchFeatures) : Bool :=
  a.ceiling.isSome || a.ceiling_height_inches.isSome || a.flooring.isSome ||
    a.flooring_color.isSome || a.floor_pattern.isSome || a.walls.isSome ||
    a.wall_color.isSome || a.baseboard_height_inches.isSome ||
    a.fireplace.isSome || a.extra

/-- A `best_furniture_zones` element: a dict, or a bare (stringly) value. -/
inductive ZoneEntry where
  | zdict (zone : Option String) (size_sqft : Option Int) (ideal_for : Option String)
  | zstr (s : String)

/-- `spatial_layout` sub-record (main.py lines 448-463). -/
structure SpatialLayout where
  shape : Option String
  width_feet : Option Int
  length_feet : Option Int
  focal_point : Option String
  focal_point_location : Option String
  natural_traffic_flow : Option String
  primary_walkway_width_needed_inches : Option Int
  best_furniture_zones : Option (List ZoneEntry)
  extra : Bool

def SpatialLayout.truthy (s : SpatialLayout) : Bool :=
  s.shape.isSome || s.width_feet.isSome || s.length_feet.isSome ||
    s.focal_point.isSome || s.focal_point_location.isSome ||
    s.natural_traffic_flow.isSome ||
    s.primary_walkway_width_needed_inches.isSome ||
    s.best_furniture_zones.isSome || s.extra

/-- `lighting_analysis` sub-record (main.py lines 466-474). -/
structure LightingAnalysis where
  primary_light_source : Option String
  light_direction : Option String
  light_intensity : Option String
  shadow_direction : Option String
  shadow_softness : Option String
  color_temperature : Option String
  extra : Bool

def LightingAnalysis.truthy (l : LightingAnalysis) : Bool :=
  l.primary_light_source.isSome || l.light_direction.isSome ||
    l.light_intensity.isSome || l.shadow_direction.isSome ||
    l.shadow_softness.isSome || l.color_temperature.isSome || l.extra

/-- The `anchor_piece` sub-dict of `staging_recommendations`. -/
structure AnchorPiece where
  item : Option String
  suggested_width_inches : Option Int
  suggested_location : Option String
  orientation : Option String
  extra : Bool

def AnchorPiece.truthy (a : AnchorPiece) : Bool :=
  a.item.isSome || a.suggested_width_inches.isSome ||
    a.suggested_location.isSome || a.orientation.isSome || a.extra

/-- A `depth_placement_guide` element: a dict, or a non-dict value (skipped by
the code's `isinstance(item, dict)` guard). -/
inductive DepthGuideItem where
  | ddict (item : Option String) (depth_from_camera_feet : Option JVal) (reason : Option String)
  | dnon

/-- A `traffic_paths_to_preserve` element: a dict (keys `from`, `to`,
`minimum_width_inches`), or a bare value rendered with `str`. -/
inductive PathEntry where
  | pdict (pathFrom : Option String) (pathTo : Option String) (minimum_width_inches : Option Int)
  | pstr (s : String)

/-- `staging_recommendations` sub-record (main.py lines 477-506). -/
structure StagingRecs where
  anchor_piece : Option AnchorPiece
  depth_placement_guide : Option (List DepthGuideItem)
  traffic_paths_to_preserve : Option (List PathEntry)
  areas_to_avoid : Option (List String)
  scale_guidance : Option String
  extra : Bool

def StagingRecs.truthy (s : StagingRecs) : Bool :=
  s.anchor_piece.isSome || s.depth_placement_guide.isSome ||
    s.traffic_paths_to_preserve.isSome || s.areas_to_avoid.isSome ||
    s.scale_guidance.isSome || s.extra

/-- The whole scene-analysis JSON object as read by `generate_image`. -/
structure SceneAnalysis where
  detected_room_type : Option String
  room_state : Option String
  confidence : Option JVal
  room_dimensions : Option RoomDimensions
  perspective_analysis : Option Perspective
  depth_mapping : Option DepthMapping
  furniture_sizing_guide : Option (List (String × SizingVal))
  doorways : Option (List Doorway)
  windows : Option (List Window)
  architectural_features : Option ArchFeatures
  spatial_layout : Option SpatialLayout
  lighting_analysis : Option LightingAnalysis
  staging_recommendations : Option StagingRecs
  extra : Bool

/-- Python truthiness of the whole scene-analysis dict (`if scene_analysis:`). -/
def SceneAnalysis.truthy (sa : SceneAnalysis) : Bool :=
  sa.detected_room_type.isSome || sa.room_state.isSome || sa.confidence.isSome ||
    sa.room_dimensions.isSome || sa.perspective_analysis.isSome ||
    sa.depth_mapping.isSome || sa.furniture_sizing_guide.isSome ||
    sa.doorways.isSome || sa.windows.isSome ||
    sa.architectural_features.isSome || sa.spatial_layout.isSome ||
    sa.lighting_analysis.isSome || sa.staging_recommendations.isSome || sa.extra

/-! ## Prompt sections (main.py lines 341-506)

Each section mirrors one `if <sub-record>:` block appending to
`scene_context`.  The full scene context is the in-order concatenation. -/

/-- Right-nested concatenation of a list of strings; models the sequential
`scene_context += ...` of the source. -/
def concatList : List String → String
  | [] => ""
  | s :: t => s ++ concatList t

/-- Renders `f"{inches/12:.1f}"` for the integer inputs of the modelled
universe (Python computes a float division and formats it with one decimal;
this integer model agrees with it on the small non-negative inputs exercised
here, e.g. 96 ↦ "8.0", 108 ↦ "9.0"). -/
def fmtFeet1 (inches : Int) : String :=
  let t := Int.ediv (inches * 10 + 6) 12
  toString (Int.ediv t 10) ++ "." ++ toString (Int.emod t 10).natAbs

/-- `d.get(k, dflt)` where a present value renders via `str` and the default
is a string (e.g. `d.get('depth_from_camera_feet', 'unknown')`). -/
def renderJValOr (o : Option JVal) (dflt : String) : String :=
  match o with
  | some v => v.render
  | none => dflt

/-- Room-dimensions section (main.py lines 344-353). -/
def sectionDims : Option RoomDimensions → String
  | none => ""
  | some dims =>
    if dims.truthy then
      let width := dims.width.getD ⟨none, none⟩
      let length := dims.length.getD ⟨none, none⟩
      let ceiling := dims.ceiling_height.getD ⟨none, none⟩
      "\n=== ROOM DIMENSIONS (CALIBRATED FROM REFERENCE OBJECTS) ===\n" ++
      "  - Width: " ++ toString (width.estimate_feet.getD 14) ++ " feet (" ++
        width.estimate_range.getD "12-16 feet" ++ ")\n" ++
      "  - Length/Depth: " ++ toString (length.estimate_feet.getD 18) ++ " feet (" ++
        length.estimate_range.getD "16-20 feet" ++ ")\n" ++
      "  - Ceiling Height: " ++ toString (ceiling.estimate_feet.getD 9) ++ " feet\n" ++
      "  - Total Floor Area: ~" ++ toString (dims.total_floor_area_sqft.getD 250) ++ " sq ft\n"
    else ""

/-- Camera/perspective section (main.py lines 356-362). -/
def sectionPerspective : Option Perspective → String
  | none => ""
  | some p =>
    if p.truthy then
      "\n=== CAMERA & PERSPECTIVE ===\n" ++
      "  - Camera height: " ++ p.camera_height.getD "standing 5-6ft" ++ "\n" ++
      "  - Camera angle: " ++ p.camera_angle.getD "straight on" ++ "\n" ++
      "  - Lens type: " ++ p.lens_type.getD "normal" ++ "\n" ++
      "  - Vanishing point: " ++ p.vanishing_point_location.getD "center" ++ "\n"
    else ""

/-- One depth zone's two lines (main.py lines 372-380); `label` is
`FOREGROUND`/`MIDGROUND`/`BACKGROUND` with its per-zone defaults. -/
def zoneLines (z : Option DepthZone) (label rangeDflt : String) (pctDflt : Int)
    (suitDflt : List String) : String :=
  match z with
  | none => ""
  | some zz =>
    if zz.truthy then
      "  - " ++ label ++ " (" ++ zz.depth_range.getD rangeDflt ++ "): " ++
        toString (zz.floor_area_percentage.getD pctDflt) ++ "% of floor\n" ++
      "    Suitable items: " ++
        pyJoin ", " (zz.suitable_for.getD suitDflt) ++ "\n"
    else ""

/-- Depth-zones section (main.py lines 365-380). -/
def sectionDepth : Option DepthMapping → String
  | none => ""
  | some depth =>
    if depth.truthy then
      "\n=== DEPTH ZONES (CRITICAL FOR FURNITURE PLACEMENT) ===\n" ++
      "  - Total depth: " ++ depth.total_depth_estimate.getD "15-20 feet" ++ "\n" ++
      zoneLines depth.foreground_zone "FOREGROUND" "0-5 feet" 20 ["small accent pieces"] ++
      zoneLines depth.midground_zone "MIDGROUND" "5-12 feet" 50 ["main furniture"] ++
      zoneLines depth.background_zone "BACKGROUND" "12+ feet" 30 ["wall furniture"]
    else ""

/-- One `size_info` element (main.py lines 388-400): append
`pre ++ value ++ post` when the value is present and truthy. -/
def sizeItem (o : Option JVal) (pre post : String) : List String :=
  match o with
  | some v => if v.truthy then [pre ++ v.render ++ post] else []
  | none => []

/-- One line of the furniture-sizing section (main.py lines 386-405). -/
def renderSizingEntry : String × SizingVal → String
  | (_, .nonDict) => ""
  | (item, .spec specs) =>
    let size_info : List String :=
      sizeItem specs.recommended_width_inches "width: " "\"" ++
      sizeItem specs.recommended_length_inches "length: " "\"" ++
      sizeItem specs.recommended_depth_inches "depth: " "\"" ++
      sizeItem specs.recommended_size "" "" ++
      sizeItem specs.recommended_height_inches "height: " "\"" ++
      sizeItem specs.recommended_diameter_inches "diameter: " "\""
    let placement := specs.placement.getD ""
    "  - " ++ strUpper item ++ ": " ++ pyJoin ", " size_info ++
      (if placement ≠ "" then " → " ++ placement else "") ++ "\n"

/-- Furniture-sizing section (main.py lines 383-405). -/
def sectionSizing : Option (List (String × SizingVal)) → String
  | none => ""
  | some sizing =>
    if sizing.isEmpty then ""
    else
      "\n=== FURNITURE SIZING (SCALED TO ROOM) ===\n" ++
      concatList (sizing.map renderSizingEntry)

/-- One doorway line (main.py lines 410-416). -/
def renderDoorway (d : Doorway) : String :=
  let loc := d.location.getD "unknown"
  let dtype := d.type.getD "interior"
  let width := d.width_inches.getD 32
  let clearance := d.clearance_needed_inches.getD 36
  let depth_ft := renderJValOr d.depth_from_camera_feet "unknown"
  "  - " ++ loc ++ ": " ++ dtype ++ " door (" ++ toString width ++
    "\" wide), clearance needed: " ++ toString clearance ++ "\", depth: " ++
    depth_ft ++ "ft from camera\n"

/-- Doorways section (main.py lines 408-416); rendered only when the
`doorways` list is present and non-empty (Python truthiness of a list). -/
def sectionDoorways : Option (List Doorway) → String
  | none => ""
  | some ds =>
    if ds.isEmpty then ""
    else
      "\n=== DOORWAYS (DO NOT BLOCK - MAINTAIN CLEARANCE) ===\n" ++
      concatList (ds.map renderDoorway)

/-- One window line (main.py lines 421-428). -/
def renderWindow (w : Window) : String :=
  let loc := w.location.getD "unknown"
  let wtype := w.type.getD "standard"
  let width := w.width_inches.getD 48
  let height := w.height_inches.getD 60
  let light := w.natural_light_contribution.getD "primary"
  let depth_ft := renderJValOr w.depth_from_camera_feet "unknown"
  "  - " ++ loc ++ ": " ++ wtype ++ " (" ++ toString width ++ "\" × " ++
    toString height ++ "\"), " ++ light ++ " light source, depth: " ++
    depth_ft ++ "ft\n"

/-- Windows section (main.py lines 419-428). -/
def sectionWindows : Option (List Window) → String
  | none => ""
  | some ws =>
    if ws.isEmpty then ""
    else
      "\n=== WINDOWS (PRESERVE ACCESS & LIGHT) ===\n" ++
      concatList (ws.map renderWindow)

/-- Architectural-features section (main.py lines 431-445). -/
def sectionArch : Option ArchFeatures → String
  | none => ""
  | some arch =>
    if arch.truthy then
      let ceiling_height := arch.ceiling_height_inches.getD 96
      "\n=== ARCHITECTURAL CONTEXT ===\n" ++
      "  - Ceiling: " ++ arch.ceiling.getD "flat" ++ ", " ++
        toString ceiling_height ++ "\" (" ++ fmtFeet1 ceiling_height ++ "ft)\n" ++
      "  - Flooring: " ++ arch.flooring_color.getD "medium" ++ " " ++
        arch.flooring.getD "hardwood" ++
      (if optStrTruthy arch.floor_pattern then
        " (" ++ arch.floor_pattern.getD "" ++ ")" else "") ++
      "\n" ++
      "  - Walls: " ++ arch.wall_color.getD "neutral" ++ " " ++
        arch.walls.getD "painted" ++ "\n" ++
      (if optTruthy arch.baseboard_height_inches then
        "  - Baseboard: " ++ renderJValOr arch.baseboard_height_inches "" ++ "\" tall\n"
       else "") ++
      (match arch.fireplace with
       | some fp =>
         if fp.present.getD false then
           "  - Fireplace: " ++ fp.location.getD "" ++ " (" ++
             toString (fp.width_inches.getD 48) ++ "\" wide, " ++
             renderJValOr fp.depth_from_camera_feet "" ++
             "ft deep) - MAKE THIS A FOCAL POINT\n"
         else ""
       | none => "")
    else ""

/-- One furniture-zone bullet (main.py lines 459-463). -/
def renderZoneEntry : ZoneEntry → String
  | .zdict zone size_sqft ideal_for =>
    "    • " ++ zone.getD "center" ++ ": " ++ toString (size_sqft.getD 0) ++
      " sqft - ideal for " ++ ideal_for.getD "furniture" ++ "\n"
  | .zstr s => "    • " ++ s ++ "\n"

/-- Spatial-layout section (main.py lines 448-463). -/
def sectionSpatial : Option SpatialLayout → String
  | none => ""
  | some spatial =>
    if spatial.truthy then
      let zones := spatial.best_furniture_zones.getD []
      "\n=== SPATIAL LAYOUT ===\n" ++
      "  - Room shape: " ++ spatial.shape.getD "rectangular" ++ "\n" ++
      "  - Dimensions: " ++ toString (spatial.width_feet.getD 14) ++ "ft × " ++
        toString (spatial.length_feet.getD 18) ++ "ft\n" ++
      "  - Focal point: " ++ spatial.focal_point.getD "window" ++ " at " ++
        spatial.focal_point_location.getD "back wall" ++ "\n" ++
      "  - Traffic flow: " ++ spatial.natural_traffic_flow.getD "through center" ++ "\n" ++
      "  - Walkway width needed: " ++
        toString (spatial.primary_walkway_width_needed_inches.getD 36) ++ "\" minimum\n" ++
      (if zones.isEmpty then ""
       else "  - Furniture zones:\n" ++ concatList (zones.map renderZoneEntry))
    else ""

/-- Lighting section (main.py lines 466-474). -/
def sectionLighting : Option LightingAnalysis → String
  | none => ""
  | some lighting =>
    if lighting.truthy then
      "\n=== LIGHTING (MATCH EXACTLY FOR REALISM) ===\n" ++
      "  - Primary source: " ++ lighting.primary_light_source.getD "natural" ++ "\n" ++
      "  - Light direction: " ++ lighting.light_direction.getD "from windows" ++ "\n" ++
      "  - Light intensity: " ++ lighting.light_intensity.getD "moderate" ++ "\n" ++
      "  - Shadow direction: " ++ lighting.shadow_direction.getD "consistent" ++ "\n" ++
      "  - Shadow softness: " ++ lighting.shadow_softness.getD "medium" ++ "\n" ++
      "  - Color temperature: " ++ lighting.color_temperature.getD "neutral" ++ "\n"
    else ""

/-- One depth-placement bullet (main.py lines 490-492). -/
def renderDepthGuideItem : DepthGuideItem → String
  | .ddict item depth_from_camera_feet reason =>
    "    • " ++ item.getD "furniture" ++ ": " ++
      renderJValOr depth_from_camera_feet "?" ++ "ft from camera (" ++
      reason.getD "" ++ ")\n"
  | .dnon => ""

/-- One traffic-path bullet (main.py lines 497-501). -/
def renderPathEntry : PathEntry → String
  | .pdict pathFrom pathTo minimum_width_inches =>
    "    • " ++ pathFrom.getD "" ++ " → " ++ pathTo.getD "" ++ ": min " ++
      toString (minimum_width_inches.getD 36) ++ "\" clearance\n"
  | .pstr s => "    • " ++ s ++ "\n"

/-- Staging-guidance section (main.py lines 477-506). -/
def sectionStaging : Option StagingRecs → String
  | none => ""
  | some staging_rec =>
    if staging_rec.truthy then
      let depth_guide := staging_rec.depth_placement_guide.getD []
      let paths := staging_rec.traffic_paths_to_preserve.getD []
      let avoid := staging_rec.areas_to_avoid.getD []
      "\n=== AI STAGING GUIDANCE (DEPTH-AWARE) ===\n" ++
      (match staging_rec.anchor_piece with
       | some ap =>
         if ap.truthy then
           "  - ANCHOR: " ++ ap.item.getD "sofa" ++ " (" ++
             toString (ap.suggested_width_inches.getD 90) ++ "\" wide)\n" ++
           "    Location: " ++ ap.suggested_location.getD "center" ++ "\n" ++
           "    Orientation: " ++ ap.orientation.getD "facing focal point" ++ "\n"
         else ""
       | none => "") ++
      (if depth_guide.isEmpty then ""
       else "  - DEPTH PLACEMENT:\n" ++ concatList (depth_guide.map renderDepthGuideItem)) ++
      (if paths.isEmpty then ""
       else "  - KEEP CLEAR:\n" ++ concatList (paths.map renderPathEntry)) ++
      (if avoid.isEmpty then ""
       else "  - AVOID: " ++ pyJoin ", " avoid ++ "\n") ++
      "  - SCALE: " ++ staging_rec.scale_guidance.getD "appropriate for room size" ++ "\n"
    else ""

/-- The ten sections, in source order. -/
def sceneSections (sa : SceneAnalysis) : List String :=
  [sectionDims sa.room_dimensions,
   sectionPerspective sa.perspective_analysis,
   sectionDepth sa.depth_mapping,
   sectionSizing sa.furniture_sizing_guide,
   sectionDoorways sa.doorways,
   sectionWindows sa.windows,
   sectionArch sa.architectural_features,
   sectionSpatial sa.spatial_layout,
   sectionLighting sa.lighting_analysis,
   sectionStaging sa.staging_recommendations]

/-- `scene_context` as built by main.py lines 341-506: empty when the
analysis is absent or falsy, otherwise the concatenated sections. -/
def compileSceneContext : Option SceneAnalysis → String
  | none => ""
  | some sa => if sa.truthy then concatList (sceneSections sa) else ""

/-! ## Python exceptions

The exceptions that can escape the modelled code paths. -/

inductive PyExc where
  | timeoutExc
  | jsonDecodeError (msg : String)
  | keyError (key : String)
  | unboundLocalJson
deriving DecidableEq

/-- `str(e)` as interpolated by the generic 500 handler.  For a `KeyError`,
Python prints the missing key in quotes; for the unbound-local slip in
`analyze_scene` it prints CPython's message (text version-dependent, the
claims never depend on it). -/
def PyExc.message : PyExc → String
  | .timeoutExc => "timed out"
  | .jsonDecodeError m => m
  | .keyError k => "\x27" ++ k ++ "\x27"
  | .unboundLocalJson =>
      "cannot access local variable \x27json\x27 where it is not associated with a value"

/-- `d['k']`: a present key yields its value, an absent key raises `KeyError`. -/
def pyIndex (o : Option α) (key : String) : Except PyExc α :=
  match o with
  | some v => .ok v
  | none => .error (.keyError key)

/-! ## House continuity (main.py lines 320-324 and 508-539) -/

/-- The `designDNA` sub-record of a house-continuity payload. -/
structure DesignDNA where
  primaryColors : Option String
  accentColors : Option String
  woodTone : Option String
  metalFinish : Option String
  textileStyle : Option String
  flooringNote : Option String
  extra : Bool

/-- A parsed `house_continuity` JSON object. -/
structure HouseContinuity where
  name : Option String
  roomsStaged : Option Int
  designDNA : Option DesignDNA
  extra : Bool

/-- Python truthiness of the parsed `house_continuity` dict
(`if house_continuity:` at main.py line 508). -/
def HouseContinuity.truthy (h : HouseContinuity) : Bool :=
  h.name.isSome || h.roomsStaged.isSome || h.designDNA.isSome || h.extra

/-! ## Prompt templates (main.py lines 95-116, 513-539, 541-555) -/

/-- The `/stage` prompt (main.py lines 95-116). -/
def stagePrompt (room_context style_context : String) : String :=
  "Analyze this " ++ room_context ++ " and create a virtual staging plan.\n\n**Style:** " ++
  style_context ++
  "\n\nProvide:\n## Room Analysis\n- Current state, dimensions estimate, architectural features, light sources\n\n## Furniture Plan\nSpecific pieces with dimensions and placement\n\n## Color Palette\nPrimary, secondary, accent colors and metal finishes\n\n## Lighting Design\nNatural, ambient, task, and accent lighting\n\n## Styling & Accessories\nArt, textiles, plants, decorative objects\n\n## Buyer Appeal\n2-3 sentence summary of how this staging increases perceived value."

/-- The plain `/generate-image` template (main.py lines 541-555). -/
def plainTemplate (room_context style_context scene_context : String) : String :=
  "Transform this empty " ++ room_context ++
  " into a beautifully staged room.\n\nStyle: " ++ style_context ++ "\n" ++
  scene_context ++
  "\nCRITICAL REQUIREMENTS:\n- Preserve the EXACT room structure: walls, windows, doors, flooring, ceiling\n- NEVER place furniture blocking doorways or windows identified above\n- Add realistic, appropriately-scaled furniture for a " ++
  room_context ++
  "\n- Ensure furniture respects room dimensions and traffic flow\n- Match the lighting direction and shadow angles from the original image\n- Add proper lighting with realistic shadows consistent with detected light sources\n- Include tasteful decor and accessories matching the style\n- Photorealistic quality, professional real estate photography look\n\nGenerate the virtually staged version of this room."

/-- The continuity-mode `/generate-image` template (main.py lines 513-539).
The flooring line reproduces the embedded conditional
`f"- Flooring Note: {dna['flooringNote']}" if dna.get('flooringNote') else ''`. -/
def continuityTemplate (room_context style_context scene_context house_name : String)
    (rooms_staged : Int)
    (primaryColors accentColors woodTone metalFinish textileStyle : String)
    (flooringNote : Option String) : String :=
  "Transform this empty " ++ room_context ++
  " into a beautifully staged room.\n\nStyle: " ++ style_context ++
  "\n\nHOUSE CONTINUITY MODE - \"" ++ house_name ++ "\" (" ++
  toString rooms_staged ++
  " rooms already staged)\nThis room must match the design language of other rooms in the same house:\n- Primary Colors: " ++
  primaryColors ++ "\n- Accent Colors: " ++ accentColors ++
  "\n- Wood Tone: " ++ woodTone ++ "\n- Metal Finishes: " ++ metalFinish ++
  "\n- Textile Style: " ++ textileStyle ++ "\n" ++
  (if optStrTruthy flooringNote then "- Flooring Note: " ++ flooringNote.getD "" else "") ++
  "\n" ++ scene_context ++
  "\nCRITICAL REQUIREMENTS:\n- Preserve the EXACT room structure: walls, windows, doors, flooring, ceiling\n- NEVER place furniture blocking doorways or windows identified above\n- Add realistic, appropriately-scaled furniture for a " ++
  room_context ++
  "\n- MAINTAIN DESIGN CONTINUITY with other rooms in this house\n- Use the EXACT color palette, wood tones, and metal finishes specified above\n- Furniture style must be cohesive with the overall house aesthetic\n- Ensure furniture respects room dimensions and traffic flow\n- Match the lighting direction and shadow angles from the original image\n- Add proper lighting with realistic shadows consistent with detected light sources\n- Include tasteful decor and accessories matching the style\n- Photorealistic quality, professional real estate photography look\n\nGenerate the virtually staged version of this room with perfect house-wide design continuity."

/-- Prompt selection of `generate_image` (main.py lines 508-555): the
continuity branch runs iff the parsed house-continuity dict is truthy; its
required keys are read with `[...]` indexing and raise `KeyError` when
absent (in source evaluation order), while `flooringNote` alone is read
through `.get` with a default. -/
def buildPrompt (room_context style_context scene_context : String)
    (house_continuity : Option HouseContinuity) : Except PyExc String :=
  match house_continuity with
  | some hc =>
    if hc.truthy then do
      let dna ← pyIndex hc.designDNA "designDNA"
      let rooms_staged ← pyIndex hc.roomsStaged "roomsStaged"
      let house_name ← pyIndex hc.name "name"
      let primaryColors ← pyIndex dna.primaryColors "primaryColors"
      let accentColors ← pyIndex dna.accentColors "accentColors"
      let woodTone ← pyIndex dna.woodTone "woodTone"
      let metalFinish ← pyIndex dna.metalFinish "metalFinish"
      let textileStyle ← pyIndex dna.textileStyle "textileStyle"
      pure (continuityTemplate room_context style_context scene_context house_name
        rooms_staged primaryColors accentColors woodTone metalFinish textileStyle
        dna.flooringNote)
    else pure (plainTemplate room_context style_context scene_context)
  | none => pure (plainTemplate room_context style_context scene_context)

/-! ## Scene-analyzer client (main.py lines 149-281)

`analyze_scene` wraps its HTTP call in
`try: ... except json.JSONDecodeError: ... except Exception: ...` and ends
with `return None`.  Crucially, `import json` appears *inside* the success
path (line 267), which makes `json` a function-local name throughout
`analyze_scene`.  When an exception is raised before that import has
executed (timeout / connection error from `httpx.post`, or `response.json()`
failing on a malformed body), CPython evaluates the first handler clause
`except json.JSONDecodeError`, the lookup of the unbound local `json` raises
`UnboundLocalError`, and that new exception propagates out of the whole
`try` statement (sibling handlers are not consulted for exceptions raised
while matching a clause).  So those failure paths *raise* instead of
returning `None`; only failures reached after the import (a text part whose
payload is not valid JSON) or non-exceptional dead ends (missing
candidates/parts, a non-200 with a parseable body) fall through to
`return None`. -/

/-- Outcome of `json.loads(part["text"])`. -/
inductive TextParse where
  | malformedText
  | analysis (sa : SceneAnalysis)

/-- One element of `candidates[0]["content"]["parts"]`. -/
inductive AnalysisPart where
  | textPart (t : TextParse)
  | otherPart

/-- One element of `candidates`; a missing `content`/`parts` chain is
modelled as an empty part list (the `.get(..., {}).get(..., [])` default). -/
structure AnalysisCandidate where
  parts : List AnalysisPart

/-- The analyzer's HTTP response body, as consumed via `response.json()`. -/
inductive AnalysisBody where
  | malformed (msg : String)
  | envelope (candidates : List AnalysisCandidate)

/-- Outcome of the analyzer's `httpx.post` call.  `timeout` also stands for
any other exception raised by the call itself, which the code treats
identically. -/
inductive AnalysisCallOutcome where
  | timeout
  | resp (status : Nat) (body : AnalysisBody)

/-- `for part in parts: if "text" in part: ...` (main.py lines 265-270):
the first text part decides the result; a malformed payload raises
`json.JSONDecodeError` *after* `import json`, is caught, and the function
falls through to `return None`. -/
def firstTextResult : List AnalysisPart → Except PyExc (Option SceneAnalysis)
  | [] => .ok none
  | .textPart .malformedText :: _ => .ok none
  | .textPart (.analysis sa) :: _ => .ok (some sa)
  | .otherPart :: rest => firstTextResult rest

/-- `analyze_scene` (main.py lines 255-281). -/
def analyzeScene : AnalysisCallOutcome → Except PyExc (Option SceneAnalysis)
  | .timeout => .error .unboundLocalJson
  | .resp status body =>
    if status == 200 then
      match body with
      | .malformed _ => .error .unboundLocalJson
      | .envelope [] => .ok none
      | .envelope (c :: _) => firstTextResult c.parts
    else
      match body with
      | .malformed _ => .error .unboundLocalJson
      | .envelope _ => .ok none

/-! ## Image-generation call and the `/generate-image` endpoint
(main.py lines 286-644)

The endpoint body runs inside `try: ... except httpx.TimeoutException:
... except Exception: ...`.  Decoding of the returned image bytes by PIL
(lines 589-594) is assumed to succeed and the `output_dimensions` field is
not modelled; neither is read by any claim. -/

/-- One element of the generator's `candidates[0]["content"]["parts"]`. -/
inductive GenPart where
  | inlineData (data : String)
  | nonImage

structure GenCandidate where
  parts : List GenPart

/-- The generator's HTTP response body.  `errorMessage` models the
`error.message` chain read on a non-200 status (absent pieces default to
"Unknown error"); `candidates` is read on a 200. -/
inductive GenBody where
  | malformed (msg : String)
  | envelope (errorMessage : Option String) (candidates : List GenCandidate)

/-- Outcome of the generator's `httpx.post` call. -/
inductive GenCallOutcome where
  | timeout
  | resp (status : Nat) (body : GenBody)

/-- `for part in parts: if "inlineData" in part:` (main.py lines 584-585). -/
def findInline : List GenPart → Option String
  | [] => none
  | .inlineData d :: _ => some d
  | .nonImage :: rest => findInline rest

/-- A JSON response body of the endpoint: either `{"error": msg}` or the
success payload (its `scene_analysis` key presence is the `sceneIncluded`
flag; the summary content itself is not read by any claim). -/
inductive RespBody where
  | errorBody (error : String)
  | successBody (image : String) (sceneIncluded : Bool)
deriving DecidableEq

/-- An HTTP response of the endpoint: status code plus JSON body. -/
structure HttpResponse where
  status : Nat
  body : RespBody
deriving DecidableEq

/-- The `house_continuity` form field together with the outcome
`json.loads` would produce on it: absent and `''` are falsy and skip the
parse (main.py line 322); a malformed string raises `json.JSONDecodeError`;
valid JSON yields `None` (JSON `null`) or a parsed record. -/
inductive HCForm where
  | absent
  | emptyString
  | malformed (msg : String)
  | parsed (v : Option HouseContinuity)

/-- Truthiness of the parsed scene analysis (`if scene_analysis:` at
main.py lines 333/342/602). -/
def sceneTruthyOpt : Option SceneAnalysis → Bool
  | some sa => sa.truthy
  | none => false

/-- A `/generate-image` request together with the outcomes of the two
outbound HTTP calls it may make. -/
structure GenRequest where
  geminiKey : Bool
  hasImage : Bool
  filename : String
  room_type : Option String
  style : Option String
  enable_analysis : Option String
  aspect_ratio : Option String
  house_continuity : HCForm
  analysisOutcome : AnalysisCallOutcome
  genOutcome : GenCallOutcome

/-- The body of the endpoint's `try` block (main.py lines 290-638). -/
def generateImageCore (req : GenRequest) : Except PyExc HttpResponse :=
  if !req.geminiKey then .ok ⟨503, .errorBody "GEMINI_API_KEY not configured"⟩
  else if !req.hasImage then .ok ⟨400, .errorBody "No image provided"⟩
  else do
    let room_type := req.room_type.getD "LIVING"
    let style := req.style.getD "MODERN"
    let enable_analysis := strLower (req.enable_analysis.getD "true") == "true"
    let room_context := dictGet ROOM_CONTEXT room_type "living room"
    let style_context := dictGet STYLE_CONTEXT style "Modern style"
    let _aspect_ratio := normalizeAspectRatio (req.aspect_ratio.getD "4:3")
    let _mime_type := sniffMime req.filename
    let house_continuity ← (match req.house_continuity with
      | .absent => Except.ok none
      | .emptyString => Except.ok none
      | .malformed msg => Except.error (PyExc.jsonDecodeError msg)
      | .parsed v => Except.ok v)
    let scene_analysis ← (if enable_analysis then analyzeScene req.analysisOutcome
                          else pure none)
    let scene_context := compileSceneContext scene_analysis
    let _prompt ← buildPrompt room_context style_context scene_context house_continuity
    match req.genOutcome with
    | .timeout => .error .timeoutExc
    | .resp status body =>
      if status != 200 then
        match body with
        | .malformed msg => .error (.jsonDecodeError msg)
        | .envelope errorMessage _ =>
          .ok ⟨status, .errorBody ("Gemini API error: " ++ errorMessage.getD "Unknown error")⟩
      else
        match body with
        | .malformed msg => .error (.jsonDecodeError msg)
        | .envelope _ [] => .ok ⟨500, .errorBody "No image generated"⟩
        | .envelope _ (c :: _) =>
          match findInline c.parts with
          | some data =>
            .ok ⟨200, .successBody ("data:image/png;base64," ++ data)
                  (sceneTruthyOpt scene_analysis)⟩
          | none => .ok ⟨500, .errorBody "No image in response"⟩

/-- `generate_image` (main.py lines 286-644): the `try` body plus its two
handlers — `except httpx.TimeoutException` → 504, `except Exception` →
500 with `str(e)`. -/
def generate_image (req : GenRequest) : HttpResponse :=
  match generateImageCore req with
  | .ok r => r
  | .error .timeoutExc => ⟨504, .errorBody "Image generation timed out (try again)"⟩
  | .error e => ⟨500, .errorBody e.message⟩

/-! ## Canonical inputs

Inputs used to exercise the compiler: for each sub-record, the value whose
modelled fields are all absent but which is still Python-truthy (a dict
holding only keys the code never reads, `extra := true`; for list-valued
sub-records, a singleton list of an empty element).  Rendering such a value
exercises every named default of its section. -/

def dimsDefault : RoomDimensions := ⟨none, none, none, none, true⟩

def perspectiveDefault : Perspective := ⟨none, none, none, none, true⟩

def zoneDefault : DepthZone := ⟨none, none, none, true⟩

def depthDefault : DepthMapping :=
  ⟨none, some zoneDefault, some zoneDefault, some zoneDefault, true⟩

def sizingDefault : List (String × SizingVal) :=
  [("sofa", .spec ⟨none, none, none, none, none, none, none⟩)]

def doorwayDefault : Doorway := ⟨none, none, none, none, none⟩

def windowDefault : Window := ⟨none, none, none, none, none, none⟩

def archDefault : ArchFeatures :=
  ⟨none, none, none, none, none, none, none, none, none, true⟩

def spatialDefault : SpatialLayout :=
  ⟨none, none, none, none, none, none, none, none, true⟩

def lightingDefault : LightingAnalysis := ⟨none, none, none, none, none, none, true⟩

def anchorDefault : AnchorPiece := ⟨none, none, none, none, true⟩

def stagingDefault : StagingRecs :=
  ⟨some anchorDefault, some [.ddict none none none], some [.pdict none none none],
   none, none, true⟩

/-- A scene analysis holding an arbitrary subset of the ten sub-records,
each present one in its all-defaults form.  The top-level scalar
`detected_room_type` (which the analyzer always returns and which is never
rendered into the scene context) is present, so the object itself is truthy. -/
def mkDefaultSA (fDims fPersp fDepth fSizing fDoors fWins fArch fSpatial
    fLight fStaging : Bool) : SceneAnalysis :=
  ⟨some "living room", none, none,
   if fDims then some dimsDefault else none,
   if fPersp then some perspectiveDefault else none,
   if fDepth then some depthDefault else none,
   if fSizing then some sizingDefault else none,
   if fDoors then some [doorwayDefault] else none,
   if fWins then some [windowDefault] else none,
   if fArch then some archDefault else none,
   if fSpatial then some spatialDefault else none,
   if fLight then some lightingDefault else none,
   if fStaging then some stagingDefault else none,
   false⟩

/-- The all-defaults rendering of each section. -/
def secDims0 : String := sectionDims (some dimsDefault)

def secPersp0 : String := sectionPerspective (some perspectiveDefault)

def secDepth0 : String := sectionDepth (some depthDefault)

def secSizing0 : String := sectionSizing (some sizingDefault)

def secDoors0 : String := sectionDoorways (some [doorwayDefault])

def secWins0 : String := sectionWindows (some [windowDefault])

def secArch0 : String := sectionArch (some archDefault)

def secSpatial0 : String := sectionSpatial (some spatialDefault)

def secLight0 : String := sectionLighting (some lightingDefault)

def secStaging0 : String := sectionStaging (some stagingDefault)

/-- The label line of each of the ten sections (newline-free needles). -/
def hdrDims : String := "=== ROOM DIMENSIONS (CALIBRATED FROM REFERENCE OBJECTS) ==="

def hdrPersp : String := "=== CAMERA & PERSPECTIVE ==="

def hdrDepth : String := "=== DEPTH ZONES (CRITICAL FOR FURNITURE PLACEMENT) ==="

def hdrSizing : String := "=== FURNITURE SIZING (SCALED TO ROOM) ==="

def hdrDoors : String := "=== DOORWAYS (DO NOT BLOCK - MAINTAIN CLEARANCE) ==="

def hdrWins : String := "=== WINDOWS (PRESERVE ACCESS & LIGHT) ==="

def hdrArch : String := "=== ARCHITECTURAL CONTEXT ==="

def hdrSpatial : String := "=== SPATIAL LAYOUT ==="

def hdrLight : String := "=== LIGHTING (MATCH EXACTLY FOR REALISM) ==="

def hdrStaging : String := "=== AI STAGING GUIDANCE (DEPTH-AWARE) ==="

/-- Marker phrase occurring only in the continuity-mode template. -/
def contMarker : String := "HOUSE CONTINUITY MODE"

/-- Marker phrase occurring only in the plain template (the continuity
template ends with "... of this room with perfect house-wide design
continuity.", so this exact sentence does not occur there). -/
def plainMarker : String := "Generate the virtually staged version of this room."

/-- A request to `/generate-image` with a valid image and the given form
field / upstream-call outcomes; the remaining form fields are absent. -/
def baseReq (ea : Option String) (hc : HCForm) (ao : AnalysisCallOutcome)
    (go : GenCallOutcome) : GenRequest :=
  { geminiKey := true
    hasImage := true
    filename := "room.jpg"
    room_type := none
    style := none
    enable_analysis := ea
    aspect_ratio := none
    house_continuity := hc
    analysisOutcome := ao
    genOutcome := go }

/-- A generation call that succeeds with one inline image part. -/
def goodGen : GenCallOutcome := .resp 200 (.envelope none [⟨[.inlineData "IMG"]⟩])

/-- An analyzer call that succeeds and parses to `sa`. -/
def goodAnalysis (sa : SceneAnalysis) : AnalysisCallOutcome :=
  .resp 200 (.envelope [⟨[.textPart (.analysis sa)]⟩])

/-- A minimal truthy scene analysis. -/
def saExample : SceneAnalysis :=
  ⟨some "living room", some "empty", some (.jint 1), none, none, none, none,
   none, none, none, none, none, none, false⟩

/-- The ten `if present then all-defaults-section else ""` strings, in source
order, for a `mkDefaultSA` input. -/
def defaultSectionList (fDims fPersp fDepth fSizing fDoors fWins fArch fSpatial
    fLight fStaging : Bool) : List String :=
  [if fDims then secDims0 else "",
   if fPersp then secPersp0 else "",
   if fDepth then secDepth0 else "",
   if fSizing then secSizing0 else "",
   if fDoors then secDoors0 else "",
   if fWins then secWins0 else "",
   if fArch then secArch0 else "",
   if fSpatial then secSpatial0 else "",
   if fLight then secLight0 else "",
   if fStaging then secStaging0 else ""]

/-- Which of the ten all-defaults sections contain a given needle. -/
def profileOf (n : String) : List Bool :=
  [strContains n secDims0, strContains n secPersp0, strContains n secDepth0,
   strContains n secSizing0, strContains n secDoors0, strContains n secWins0,
   strContains n secArch0, strContains n secSpatial0, strContains n secLight0,
   strContains n secStaging0]

/-- Pointwise `flag && value`, folded with `||`: whether a needle with the
given per-section profile occurs in the concatenation selected by the flags. -/
def mix : List Bool → List Bool → Bool
  | f :: fs, b :: bs => (f && b) || mix fs bs
  | _, _ => false

/-- The compiled scene context for a `mkDefaultSA` input. -/
def c3ctx (fDims fPersp fDepth fSizing fDoors fWins fArch fSpatial
    fLight fStaging : Bool) : String :=
  compileSceneContext (some (mkDefaultSA fDims fPersp fDepth fSizing fDoors fWins
    fArch fSpatial fLight fStaging))

/-- The scene analysis `{"room_dimensions": {}}`: the sub-record key is
present but its dict is empty, hence Python-falsy. -/
def saC3 : SceneAnalysis :=
  ⟨none, none, none, some ⟨none, none, none, none, false⟩, none, none, none,
   none, none, none, none, none, none, false⟩

/-- A fully-populated design-DNA record (no flooring note). -/
def dnaFull : DesignDNA :=
  ⟨some "warm whites", some "sage green", some "light oak", some "brushed brass",
   some "linen", none, false⟩

/-- A house-continuity record whose `name` key is missing. -/
def hcNoName : HouseContinuity := ⟨none, some 3, some dnaFull, false⟩

/-- The parse of the JSON text `{}`: a present but empty (falsy) record. -/
def hcEmpty : HouseContinuity := ⟨none, none, none, false⟩

/-- A fully-populated house-continuity record. -/
def hcFull : HouseContinuity := ⟨some "Maple House", some 3, some dnaFull, false⟩

/-! ## String-containment lemmas -/

theorem seqContains_iff {n h : List Char} : seqContains n h = true ↔ n <:+: h := by
  induction h with
  | nil => simp [seqContains, List.isEmpty_iff]
  | cons c t ih => simp [seqContains, ih, List.infix_cons_iff]

theorem prefix_split {n a b : List Char} {x : Char} (hx : x ∉ n)
    (h : n <+: a ++ x :: b) : n <+: a := by
  induction a generalizing n with
  | nil =>
    cases n with
    | nil => exact List.nil_prefix
    | cons d m =>
      rw [List.nil_append] at h
      obtain ⟨rfl, -⟩ := List.cons_prefix_cons.mp h
      exact absurd (List.mem_cons_self _ _) hx
  | cons c a' ih =>
    cases n with
    | nil => exact List.nil_prefix
    | cons d m =>
      rw [List.cons_append] at h
      obtain ⟨rfl, h2⟩ := List.cons_prefix_cons.mp h
      exact List.cons_prefix_cons.mpr
        ⟨rfl, ih (fun hm => hx (List.mem_cons_of_mem _ hm)) h2⟩

theorem infix_split {n a b : List Char} {x : Char} (hx : x ∉ n)
    (h : n <:+: a ++ x :: b) : n <:+: a ∨ n <:+: x :: b := by
  induction a with
  | nil => exact Or.inr (by simpa using h)
  | cons c a' ih =>
    rw [List.cons_append] at h
    rcases List.infix_cons_iff.mp h with hp | hi
    · have hp' : n <+: (c :: a') ++ x :: b := by rw [List.cons_append]; exact hp
      exact Or.inl (List.IsPrefix.isInfix (prefix_split hx hp'))
    · rcases ih hi with h1 | h2
      · exact Or.inl (List.infix_cons h1)
      · exact Or.inr h2

theorem toList_append (a b : String) : (a ++ b).toList = a.toList ++ b.toList := rfl

theorem strContains_iff {n h : String} : strContains n h = true ↔ n.toList <:+: h.toList :=
  seqContains_iff

theorem strContains_self (n : String) : strContains n n = true :=
  strContains_iff.mpr List.infix_rfl

theorem strContains_append_left {n a : String} (b : String)
    (h : strContains n a = true) : strContains n (a ++ b) = true := by
  obtain ⟨s, t, hs⟩ := strContains_iff.mp h
  exact strContains_iff.mpr ⟨s, t ++ b.toList, by rw [toList_append, ← hs]; simp⟩

theorem strContains_append_right (a : String) {n b : String}
    (h : strContains n b = true) : strContains n (a ++ b) = true := by
  obtain ⟨s, t, hs⟩ := strContains_iff.mp h
  exact strContains_iff.mpr ⟨a.toList ++ s, t, by rw [toList_append, ← hs]; simp⟩

theorem strContains_mid (a n b : String) : strContains n (a ++ (n ++ b)) = true :=
  strContains_append_right a (strContains_append_left b (strContains_self n))

theorem strContains_trans {n s h : String} (h1 : strContains n s = true)
    (h2 : strContains s h = true) : strContains n h = true :=
  strContains_iff.mpr ((strContains_iff.mp h1).trans (strContains_iff.mp h2))

theorem headNl_of_headNlB {s : String} (h : headNlB s = true) : headNl s := by
  unfold headNlB at h
  rcases hs : s.toList with _ | ⟨c, t⟩
  · exact Or.inl hs
  · rw [hs] at h
    simp at h
    exact Or.inr ⟨t, by rw [hs, h]⟩

theorem headNl_empty : headNl "" := Or.inl rfl

theorem headNl_append {a b : String} (ha : headNl a) (hb : headNl b) :
    headNl (a ++ b) := by
  unfold headNl at *
  rw [toList_append]
  rcases ha with ha | ⟨t, ha⟩
  · rw [ha, List.nil_append]; exact hb
  · rw [ha]; exact Or.inr ⟨t ++ b.toList, by simp⟩

theorem headNl_ite {s : String} (f : Bool) (hs : headNl s) :
    headNl (if f then s else "") := by
  cases f
  · simpa using headNl_empty
  · simpa using hs

theorem headNl_concat {l : List String} (hl : ∀ s ∈ l, headNl s) :
    headNl (concatList l) := by
  induction l with
  | nil => exact headNl_empty
  | cons s t ih =>
    exact headNl_append (hl s (List.mem_cons_self _ _))
      (ih fun x hx => hl x (List.mem_cons_of_mem _ hx))

theorem strContains_append_nl {n : String} (hn : ('\n' : Char) ∉ n.toList)
    (a b : String) (hb : headNl b) :
    strContains n (a ++ b) = (strContains n a || strContains n b) := by
  rw [Bool.eq_iff_iff]
  simp only [strContains_iff, Bool.or_eq_true]
  rw [toList_append]
  constructor
  · intro h
    rcases hb with hb | ⟨t, hb⟩
    · rw [hb, List.append_nil] at h
      exact Or.inl h
    · rw [hb] at h
      rcases infix_split hn h with h1 | h2
      · exact Or.inl h1
      · exact Or.inr (by rw [hb]; exact h2)
  · intro h
    rcases h with h | h
    · obtain ⟨s, t, hs⟩ := h
      exact ⟨s, t ++ b.toList, by rw [← hs]; simp⟩
    · obtain ⟨s, t, hs⟩ := h
      exact ⟨a.toList ++ s, t, by rw [← hs]; simp⟩

theorem strContains_empty_false {n : String} (hne : n.toList ≠ []) :
    strContains n "" = false := by
  show n.toList.isEmpty = false
  cases he : n.toList.isEmpty
  · rfl
  · exact absurd (List.isEmpty_iff.mp he) hne

theorem strContains_concat {n : String} (hn : ('\n' : Char) ∉ n.toList)
    (hne : n.toList ≠ []) (l : List String) (hl : ∀ s ∈ l, headNl s) :
    strContains n (concatList l) = l.any (fun s => strContains n s) := by
  induction l with
  | nil =>
    rw [List.any_nil]
    exact strContains_empty_false hne
  | cons s t ih =>
    rw [show concatList (s :: t) = s ++ concatList t from rfl]
    rw [strContains_append_nl hn _ _
      (headNl_concat fun x hx => hl x (List.mem_cons_of_mem _ hx))]
    rw [ih (fun x hx => hl x (List.mem_cons_of_mem _ hx))]
    rw [List.any_cons]

theorem strContains_ite {n s : String} {f : Bool} (h0 : strContains n "" = false) :
    strContains n (if f then s else "") = (f && strContains n s) := by
  cases f
  · simpa using h0
  · simp

theorem strContains_concat_mem {s : String} {l : List String} (h : s ∈ l) :
    strContains s (concatList l) = true := by
  induction l with
  | nil => cases h
  | cons x t ih =>
    rcases List.mem_cons.mp h with rfl | hm
    · exact strContains_append_left _ (strContains_self _)
    · exact strContains_append_right _ (ih hm)

/-! ## Structure of the scene context on all-defaults inputs -/

theorem sectionDims_ite (f : Bool) :
    sectionDims (if f then some dimsDefault else none) = if f then secDims0 else "" := by
  cases f <;> rfl

theorem sectionPersp_ite (f : Bool) :
    sectionPerspective (if f then some perspectiveDefault else none) =
      if f then secPersp0 else "" := by
  cases f <;> rfl

theorem sectionDepth_ite (f : Bool) :
    sectionDepth (if f then some depthDefault else none) = if f then secDepth0 else "" := by
  cases f <;> rfl

theorem sectionSizing_ite (f : Bool) :
    sectionSizing (if f then some sizingDefault else none) = if f then secSizing0 else "" := by
  cases f <;> rfl

theorem sectionDoors_ite (f : Bool) :
    sectionDoorways (if f then some [doorwayDefault] else none) =
      if f then secDoors0 else "" := by
  cases f <;> rfl

theorem sectionWins_ite (f : Bool) :
    sectionWindows (if f then some [windowDefault] else none) =
      if f then secWins0 else "" := by
  cases f <;> rfl

theorem sectionArch_ite (f : Bool) :
    sectionArch (if f then some archDefault else none) = if f then secArch0 else "" := by
  cases f <;> rfl

theorem sectionSpatial_ite (f : Bool) :
    sectionSpatial (if f then some spatialDefault else none) =
      if f then secSpatial0 else "" := by
  cases f <;> rfl

theorem sectionLight_ite (f : Bool) :
    sectionLighting (if f then some lightingDefault else none) =
      if f then secLight0 else "" := by
  cases f <;> rfl

theorem sectionStaging_ite (f : Bool) :
    sectionStaging (if f then some stagingDefault else none) =
      if f then secStaging0 else "" := by
  cases f <;> rfl

theorem compile_mkDefault (f1 f2 f3 f4 f5 f6 f7 f8 f9 f10 : Bool) :
    compileSceneContext (some (mkDefaultSA f1 f2 f3 f4 f5 f6 f7 f8 f9 f10)) =
      concatList (defaultSectionList f1 f2 f3 f4 f5 f6 f7 f8 f9 f10) := by
  have hsec : sceneSections (mkDefaultSA f1 f2 f3 f4 f5 f6 f7 f8 f9 f10) =
      defaultSectionList f1 f2 f3 f4 f5 f6 f7 f8 f9 f10 := by
    simp only [sceneSections, mkDefaultSA, defaultSectionList, sectionDims_ite,
      sectionPersp_ite, sectionDepth_ite, sectionSizing_ite, sectionDoors_ite,
      sectionWins_ite, sectionArch_ite, sectionSpatial_ite, sectionLight_ite,
      sectionStaging_ite]
  show (if (mkDefaultSA f1 f2 f3 f4 f5 f6 f7 f8 f9 f10).truthy then
      concatList (sceneSections (mkDefaultSA f1 f2 f3 f4 f5 f6 f7 f8 f9 f10))
    else "") = _
  rw [hsec]
  rfl

theorem defaultSectionList_headNl (f1 f2 f3 f4 f5 f6 f7 f8 f9 f10 : Bool) :
    ∀ s ∈ defaultSectionList f1 f2 f3 f4 f5 f6 f7 f8 f9 f10, headNl s := by
  intro s hs
  simp only [defaultSectionList, List.mem_cons, List.not_mem_nil, or_false] at hs
  rcases hs with rfl | rfl | rfl | rfl | rfl | rfl | rfl | rfl | rfl | rfl
  · exact headNl_ite f1 (headNl_of_headNlB (by decide))
  · exact headNl_ite f2 (headNl_of_headNlB (by decide))
  · exact headNl_ite f3 (headNl_of_headNlB (by decide))
  · exact headNl_ite f4 (headNl_of_headNlB (by decide))
  · exact headNl_ite f5 (headNl_of_headNlB (by decide))
  · exact headNl_ite f6 (headNl_of_headNlB (by decide))
  · exact headNl_ite f7 (headNl_of_headNlB (by decide))
  · exact headNl_ite f8 (headNl_of_headNlB (by decide))
  · exact headNl_ite f9 (headNl_of_headNlB (by decide))
  · exact headNl_ite f10 (headNl_of_headNlB (by decide))

theorem needle_master (n : String) (hn : ('\n' : Char) ∉ n.toList)
    (hne : n.toList ≠ []) (f1 f2 f3 f4 f5 f6 f7 f8 f9 f10 : Bool) :
    strContains n (compileSceneContext (some (mkDefaultSA f1 f2 f3 f4 f5 f6 f7 f8 f9 f10))) =
      mix [f1, f2, f3, f4, f5, f6, f7, f8, f9, f10] (profileOf n) := by
  have h0 := strContains_empty_false hne
  rw [compile_mkDefault,
    strContains_concat hn hne _ (defaultSectionList_headNl f1 f2 f3 f4 f5 f6 f7 f8 f9 f10)]
  simp only [defaultSectionList, List.any_cons, List.any_nil, mix, profileOf,
    strContains_ite h0]

set_option maxRecDepth 100000

set_option maxHeartbeats 2000000

/-! ## Claim C3 -/

/-- C3 counterexample: a `SceneAnalysis` whose `room_dimensions` sub-record
is present but empty (`{"room_dimensions": {}}`) compiles to a prompt
without the ROOM DIMENSIONS section (indeed to the empty scene context), so
the compiled prompt does not contain exactly the sections of the *present*
sub-records: presence of the key is not sufficient, the sub-record must
also be non-empty. -/
theorem c3_counterexample :
    saC3.room_dimensions.isSome = true ∧
    compileSceneContext (some saC3) = "" ∧
    strContains hdrDims (compileSceneContext (some saC3)) = false := by
  refine ⟨rfl, by decide, by decide⟩

/-- C3 (amended): over scene analyses holding an arbitrary subset of the ten
sub-records, each present one non-empty with all modelled fields missing,
the compiled scene context contains a section's label line, and that
section's full all-defaults text, exactly when the corresponding sub-record
is present (so every missing field is rendered with its named default —
e.g. ceiling height 9 feet, doorway width 32", window 48" × 60", ceiling
96" (8.0ft), walkway 36", anchor sofa 90"), and the strings "None" and
"null" never occur in the compiled prompt. -/
theorem c3_sections_and_defaults (f1 f2 f3 f4 f5 f6 f7 f8 f9 f10 : Bool) :
    (strContains hdrDims (c3ctx f1 f2 f3 f4 f5 f6 f7 f8 f9 f10) = f1 ∧ strContains secDims0 (c3ctx f1 f2 f3 f4 f5 f6 f7 f8 f9 f10) = f1) ∧
    (strContains hdrPersp (c3ctx f1 f2 f3 f4 f5 f6 f7 f8 f9 f10) = f2 ∧ strContains secPersp0 (c3ctx f1 f2 f3 f4 f5 f6 f7 f8 f9 f10) = f2) ∧
    (strContains hdrDepth (c3ctx f1 f2 f3 f4 f5 f6 f7 f8 f9 f10) = f3 ∧ strContains secDepth0 (c3ctx f1 f2 f3 f4 f5 f6 f7 f8 f9 f10) = f3) ∧
    (strContains hdrSizing (c3ctx f1 f2 f3 f4 f5 f6 f7 f8 f9 f10) = f4 ∧ strContains secSizing0 (c3ctx f1 f2 f3 f4 f5 f6 f7 f8 f9 f10) = f4) ∧
    (strContains hdrDoors (c3ctx f1 f2 f3 f4 f5 f6 f7 f8 f9 f10) = f5 ∧ strContains secDoors0 (c3ctx f1 f2 f3 f4 f5 f6 f7 f8 f9 f10) = f5) ∧
    (strContains hdrWins (c3ctx f1 f2 f3 f4 f5 f6 f7 f8 f9 f10) = f6 ∧ strContains secWins0 (c3ctx f1 f2 f3 f4 f5 f6 f7 f8 f9 f10) = f6) ∧
    (strContains hdrArch (c3ctx f1 f2 f3 f4 f5 f6 f7 f8 f9 f10) = f7 ∧ strContains secArch0 (c3ctx f1 f2 f3 f4 f5 f6 f7 f8 f9 f10) = f7) ∧
    (strContains hdrSpatial (c3ctx f1 f2 f3 f4 f5 f6 f7 f8 f9 f10) = f8 ∧ strContains secSpatial0 (c3ctx f1 f2 f3 f4 f5 f6 f7 f8 f9 f10) = f8) ∧
    (strContains hdrLight (c3ctx f1 f2 f3 f4 f5 f6 f7 f8 f9 f10) = f9 ∧ strContains secLight0 (c3ctx f1 f2 f3 f4 f5 f6 f7 f8 f9 f10) = f9) ∧
    (strContains hdrStaging (c3ctx f1 f2 f3 f4 f5 f6 f7 f8 f9 f10) = f10 ∧ strContains secStaging0 (c3ctx f1 f2 f3 f4 f5 f6 f7 f8 f9 f10) = f10) ∧
    strContains "- Ceiling Height: 9 feet" (c3ctx f1 f2 f3 f4 f5 f6 f7 f8 f9 f10) = f1 ∧
    strContains "- Camera height: standing 5-6ft" (c3ctx f1 f2 f3 f4 f5 f6 f7 f8 f9 f10) = f2 ∧
    strContains "- FOREGROUND (0-5 feet): 20% of floor" (c3ctx f1 f2 f3 f4 f5 f6 f7 f8 f9 f10) = f3 ∧
    strContains "(32\" wide), clearance needed: 36\"" (c3ctx f1 f2 f3 f4 f5 f6 f7 f8 f9 f10) = f5 ∧
    strContains "(48\" × 60\"), primary light source" (c3ctx f1 f2 f3 f4 f5 f6 f7 f8 f9 f10) = f6 ∧
    strContains "- Ceiling: flat, 96\" (8.0ft)" (c3ctx f1 f2 f3 f4 f5 f6 f7 f8 f9 f10) = f7 ∧
    strContains "- Walkway width needed: 36\" minimum" (c3ctx f1 f2 f3 f4 f5 f6 f7 f8 f9 f10) = f8 ∧
    strContains "- Primary source: natural" (c3ctx f1 f2 f3 f4 f5 f6 f7 f8 f9 f10) = f9 ∧
    strContains "- ANCHOR: sofa (90\" wide)" (c3ctx f1 f2 f3 f4 f5 f6 f7 f8 f9 f10) = f10 ∧
    strContains "None" (c3ctx f1 f2 f3 f4 f5 f6 f7 f8 f9 f10) = false ∧
    strContains "null" (c3ctx f1 f2 f3 f4 f5 f6 f7 f8 f9 f10) = false := by
  simp only [c3ctx]
  have hd1 : strContains hdrDims
      (compileSceneContext (some (mkDefaultSA f1 f2 f3 f4 f5 f6 f7 f8 f9 f10))) = f1 := by
    rw [needle_master _ (by decide) (by decide),
      (by decide : profileOf hdrDims =
        [true, false, false, false, false, false, false, false, false, false])]
    simp [mix]
  have hd2 : strContains hdrPersp
      (compileSceneContext (some (mkDefaultSA f1 f2 f3 f4 f5 f6 f7 f8 f9 f10))) = f2 := by
    rw [needle_master _ (by decide) (by decide),
      (by decide : profileOf hdrPersp =
        [false, true, false, false, false, false, false, false, false, false])]
    simp [mix]
  have hd3 : strContains hdrDepth
      (compileSceneContext (some (mkDefaultSA f1 f2 f3 f4 f5 f6 f7 f8 f9 f10))) = f3 := by
    rw [needle_master _ (by decide) (by decide),
      (by decide : profileOf hdrDepth =
        [false, false, true, false, false, false, false, false, false, false])]
    simp [mix]
  have hd4 : strContains hdrSizing
      (compileSceneContext (some (mkDefaultSA f1 f2 f3 f4 f5 f6 f7 f8 f9 f10))) = f4 := by
    rw [needle_master _ (by decide) (by decide),
      (by decide : profileOf hdrSizing =
        [false, false, false, true, false, false, false, false, false, false])]
    simp [mix]
  have hd5 : strContains hdrDoors
      (compileSceneContext (some (mkDefaultSA f1 f2 f3 f4 f5 f6 f7 f8 f9 f10))) = f5 := by
    rw [needle_master _ (by decide) (by decide),
      (by decide : profileOf hdrDoors =
        [false, false, false, false, true, false, false, false, false, false])]
    simp [mix]
  have hd6 : strContains hdrWins
      (compileSceneContext (some (mkDefaultSA f1 f2 f3 f4 f5 f6 f7 f8 f9 f10))) = f6 := by
    rw [needle_master _ (by decide) (by decide),
      (by decide : profileOf hdrWins =
        [false, false, false, false, false, true, false, false, false, false])]
    simp [mix]
  have hd7 : strContains hdrArch
      (compileSceneContext (some (mkDefaultSA f1 f2 f3 f4 f5 f6 f7 f8 f9 f10))) = f7 := by
    rw [needle_master _ (by decide) (by decide),
      (by decide : profileOf hdrArch =
        [false, false, false, false, false, false, true, false, false, false])]
    simp [mix]
  have hd8 : strContains hdrSpatial
      (compileSceneContext (some (mkDefaultSA f1 f2 f3 f4 f5 f6 f7 f8 f9 f10))) = f8 := by
    rw [needle_master _ (by decide) (by decide),
      (by decide : profileOf hdrSpatial =
        [false, false, false, false, false, false, false, true, false, false])]
    simp [mix]
  have hd9 : strContains hdrLight
      (compileSceneContext (some (mkDefaultSA f1 f2 f3 f4 f5 f6 f7 f8 f9 f10))) = f9 := by
    rw [needle_master _ (by decide) (by decide),
      (by decide : profileOf hdrLight =
        [false, false, false, false, false, false, false, false, true, false])]
    simp [mix]
  have hd10 : strContains hdrStaging
      (compileSceneContext (some (mkDefaultSA f1 f2 f3 f4 f5 f6 f7 f8 f9 f10))) = f10 := by
    rw [needle_master _ (by decide) (by decide),
      (by decide : profileOf hdrStaging =
        [false, false, false, false, false, false, false, false, false, true])]
    simp [mix]
  have sc1 : strContains secDims0
      (compileSceneContext (some (mkDefaultSA f1 f2 f3 f4 f5 f6 f7 f8 f9 f10))) = f1 := by
    cases f1 with
    | false =>
      refine Bool.eq_false_iff.mpr (fun hc => ?_)
      have ht := strContains_trans (by decide : strContains hdrDims secDims0 = true) hc
      rw [hd1] at ht
      cases ht
    | true =>
      rw [compile_mkDefault]
      exact strContains_concat_mem (List.mem_cons_self _ _)
  have sc2 : strContains secPersp0
      (compileSceneContext (some (mkDefaultSA f1 f2 f3 f4 f5 f6 f7 f8 f9 f10))) = f2 := by
    cases f2 with
    | false =>
      refine Bool.eq_false_iff.mpr (fun hc => ?_)
      have ht := strContains_trans (by decide : strContains hdrPersp secPersp0 = true) hc
      rw [hd2] at ht
      cases ht
    | true =>
      rw [compile_mkDefault]
      exact strContains_concat_mem (List.mem_cons_of_mem _ (List.mem_cons_self _ _))
  have sc3 : strContains secDepth0
      (compileSceneContext (some (mkDefaultSA f1 f2 f3 f4 f5 f6 f7 f8 f9 f10))) = f3 := by
    cases f3 with
    | false =>
      refine Bool.eq_false_iff.mpr (fun hc => ?_)
      have ht := strContains_trans (by decide : strContains hdrDepth secDepth0 = true) hc
      rw [hd3] at ht
      cases ht
    | true =>
      rw [compile_mkDefault]
      exact strContains_concat_mem
        (List.mem_cons_of_mem _ (List.mem_cons_of_mem _ (List.mem_cons_self _ _)))
  have sc4 : strContains secSizing0
      (compileSceneContext (some (mkDefaultSA f1 f2 f3 f4 f5 f6 f7 f8 f9 f10))) = f4 := by
    cases f4 with
    | false =>
      refine Bool.eq_false_iff.mpr (fun hc => ?_)
      have ht := strContains_trans (by decide : strContains hdrSizing secSizing0 = true) hc
      rw [hd4] at ht
      cases ht
    | true =>
      rw [compile_mkDefault]
      exact strContains_concat_mem (List.mem_cons_of_mem _ (List.mem_cons_of_mem _
        (List.mem_cons_of_mem _ (List.mem_cons_self _ _))))
  have sc5 : strContains secDoors0
      (compileSceneContext (some (mkDefaultSA f1 f2 f3 f4 f5 f6 f7 f8 f9 f10))) = f5 := by
    cases f5 with
    | false =>
      refine Bool.eq_false_iff.mpr (fun hc => ?_)
      have ht := strContains_trans (by decide : strContains hdrDoors secDoors0 = true) hc
      rw [hd5] at ht
      cases ht
    | true =>
      rw [compile_mkDefault]
      exact strContains_concat_mem (List.mem_cons_of_mem _ (List.mem_cons_of_mem _
        (List.mem_cons_of_mem _ (List.mem_cons_of_mem _ (List.mem_cons_self _ _)))))
  have sc6 : strContains secWins0
      (compileSceneContext (some (mkDefaultSA f1 f2 f3 f4 f5 f6 f7 f8 f9 f10))) = f6 := by
    cases f6 with
    | false =>
      refine Bool.eq_false_iff.mpr (fun hc => ?_)
      have ht := strContains_trans (by decide : strContains hdrWins secWins0 = true) hc
      rw [hd6] at ht
      cases ht
    | true =>
      rw [compile_mkDefault]
      exact strContains_concat_mem (List.mem_cons_of_mem _ (List.mem_cons_of_mem _
        (List.mem_cons_of_mem _ (List.mem_cons_of_mem _ (List.mem_cons_of_mem _
          (List.mem_cons_self _ _))))))
  have sc7 : strContains secArch0
      (compileSceneContext (some (mkDefaultSA f1 f2 f3 f4 f5 f6 f7 f8 f9 f10))) = f7 := by
    cases f7 with
    | false =>
      refine Bool.eq_false_iff.mpr (fun hc => ?_)
      have ht := strContains_trans (by decide : strContains hdrArch secArch0 = true) hc
      rw [hd7] at ht
      cases ht
    | true =>
      rw [compile_mkDefault]
      exact strContains_concat_mem (List.mem_cons_of_mem _ (List.mem_cons_of_mem _
        (List.mem_cons_of_mem _ (List.mem_cons_of_mem _ (List.mem_cons_of_mem _
          (List.mem_cons_of_mem _ (List.mem_cons_self _ _)))))))
  have sc8 : strContains secSpatial0
      (compileSceneContext (some (mkDefaultSA f1 f2 f3 f4 f5 f6 f7 f8 f9 f10))) = f8 := by
    cases f8 with
    | false =>
      refine Bool.eq_false_iff.mpr (fun hc => ?_)
      have ht := strContains_trans (by decide : strContains hdrSpatial secSpatial0 = true) hc
      rw [hd8] at ht
      cases ht
    | true =>
      rw [compile_mkDefault]
      exact strContains_concat_mem (List.mem_cons_of_mem _ (List.mem_cons_of_mem _
        (List.mem_cons_of_mem _ (List.mem_cons_of_mem _ (List.mem_cons_of_mem _
          (List.mem_cons_of_mem _ (List.mem_cons_of_mem _ (List.mem_cons_self _ _))))))))
  have sc9 : strContains secLight0
      (compileSceneContext (some (mkDefaultSA f1 f2 f3 f4 f5 f6 f7 f8 f9 f10))) = f9 := by
    cases f9 with
    | false =>
      refine Bool.eq_false_iff.mpr (fun hc => ?_)
      have ht := strContains_trans (by decide : strContains hdrLight secLight0 = true) hc
      rw [hd9] at ht
      cases ht
    | true =>
      rw [compile_mkDefault]
      exact strContains_concat_mem (List.mem_cons_of_mem _ (List.mem_cons_of_mem _
        (List.mem_cons_of_mem _ (List.mem_cons_of_mem _ (List.mem_cons_of_mem _
          (List.mem_cons_of_mem _ (List.mem_cons_of_mem _ (List.mem_cons_of_mem _
            (List.mem_cons_self _ _)))))))))
  have sc10 : strContains secStaging0
      (compileSceneContext (some (mkDefaultSA f1 f2 f3 f4 f5 f6 f7 f8 f9 f10))) = f10 := by
    cases f10 with
    | false =>
      refine Bool.eq_false_iff.mpr (fun hc => ?_)
      have ht := strContains_trans (by decide : strContains hdrStaging secStaging0 = true) hc
      rw [hd10] at ht
      cases ht
    | true =>
      rw [compile_mkDefault]
      exact strContains_concat_mem (List.mem_cons_of_mem _ (List.mem_cons_of_mem _
        (List.mem_cons_of_mem _ (List.mem_cons_of_mem _ (List.mem_cons_of_mem _
          (List.mem_cons_of_mem _ (List.mem_cons_of_mem _ (List.mem_cons_of_mem _
            (List.mem_cons_of_mem _ (List.mem_cons_self _ _))))))))))
  have lt1 : strContains "- Ceiling Height: 9 feet"
      (compileSceneContext (some (mkDefaultSA f1 f2 f3 f4 f5 f6 f7 f8 f9 f10))) = f1 := by
    rw [needle_master _ (by decide) (by decide),
      (by decide : profileOf "- Ceiling Height: 9 feet" =
        [true, false, false, false, false, false, false, false, false, false])]
    simp [mix]
  have lt2 : strContains "- Camera height: standing 5-6ft"
      (compileSceneContext (some (mkDefaultSA f1 f2 f3 f4 f5 f6 f7 f8 f9 f10))) = f2 := by
    rw [needle_master _ (by decide) (by decide),
      (by decide : profileOf "- Camera height: standing 5-6ft" =
        [false, true, false, false, false, false, false, false, false, false])]
    simp [mix]
  have lt3 : strContains "- FOREGROUND (0-5 feet): 20% of floor"
      (compileSceneContext (some (mkDefaultSA f1 f2 f3 f4 f5 f6 f7 f8 f9 f10))) = f3 := by
    rw [needle_master _ (by decide) (by decide),
      (by decide : profileOf "- FOREGROUND (0-5 feet): 20% of floor" =
        [false, false, true, false, false, false, false, false, false, false])]
    simp [mix]
  have lt5 : strContains "(32\" wide), clearance needed: 36\""
      (compileSceneContext (some (mkDefaultSA f1 f2 f3 f4 f5 f6 f7 f8 f9 f10))) = f5 := by
    rw [needle_master _ (by decide) (by decide),
      (by decide : profileOf "(32\" wide), clearance needed: 36\"" =
        [false, false, false, false, true, false, false, false, false, false])]
    simp [mix]
  have lt6 : strContains "(48\" × 60\"), primary light source"
      (compileSceneContext (some (mkDefaultSA f1 f2 f3 f4 f5 f6 f7 f8 f9 f10))) = f6 := by
    rw [needle_master _ (by decide) (by decide),
      (by decide : profileOf "(48\" × 60\"), primary light source" =
        [false, false, false, false, false, true, false, false, false, false])]
    simp [mix]
  have lt7 : strContains "- Ceiling: flat, 96\" (8.0ft)"
      (compileSceneContext (some (mkDefaultSA f1 f2 f3 f4 f5 f6 f7 f8 f9 f10))) = f7 := by
    rw [needle_master _ (by decide) (by decide),
      (by decide : profileOf "- Ceiling: flat, 96\" (8.0ft)" =
        [false, false, false, false, false, false, true, false, false, false])]
    simp [mix]
  have lt8 : strContains "- Walkway width needed: 36\" minimum"
      (compileSceneContext (some (mkDefaultSA f1 f2 f3 f4 f5 f6 f7 f8 f9 f10))) = f8 := by
    rw [needle_master _ (by decide) (by decide),
      (by decide : profileOf "- Walkway width needed: 36\" minimum" =
        [false, false, false, false, false, false, false, true, false, false])]
    simp [mix]
  have lt9 : strContains "- Primary source: natural"
      (compileSceneContext (some (mkDefaultSA f1 f2 f3 f4 f5 f6 f7 f8 f9 f10))) = f9 := by
    rw [needle_master _ (by decide) (by decide),
      (by decide : profileOf "- Primary source: natural" =
        [false, false, false, false, false, false, false, false, true, false])]
    simp [mix]
  have lt10 : strContains "- ANCHOR: sofa (90\" wide)"
      (compileSceneContext (some (mkDefaultSA f1 f2 f3 f4 f5 f6 f7 f8 f9 f10))) = f10 := by
    rw [needle_master _ (by decide) (by decide),
      (by decide : profileOf "- ANCHOR: sofa (90\" wide)" =
        [false, false, false, false, false, false, false, false, false, true])]
    simp [mix]
  have hNone : strContains "None"
      (compileSceneContext (some (mkDefaultSA f1 f2 f3 f4 f5 f6 f7 f8 f9 f10))) = false := by
    rw [needle_master _ (by decide) (by decide),
      (by decide : profileOf "None" =
        [false, false, false, false, false, false, false, false, false, false])]
    simp [mix]
  have hNull : strContains "null"
      (compileSceneContext (some (mkDefaultSA f1 f2 f3 f4 f5 f6 f7 f8 f9 f10))) = false := by
    rw [needle_master _ (by decide) (by decide),
      (by decide : profileOf "null" =
        [false, false, false, false, false, false, false, false, false, false])]
    simp [mix]
  exact ⟨⟨hd1, sc1⟩, ⟨hd2, sc2⟩, ⟨hd3, sc3⟩, ⟨hd4, sc4⟩, ⟨hd5, sc5⟩, ⟨hd6, sc6⟩,
    ⟨hd7, sc7⟩, ⟨hd8, sc8⟩, ⟨hd9, sc9⟩, ⟨hd10, sc10⟩, lt1, lt2, lt3, lt5, lt6,
    lt7, lt8, lt9, lt10, hNone, hNull⟩

/-! ## Claim C1 -/

/-- C1 counterexample: a house-continuity record with `designDNA` and
`roomsStaged` but no `name` key makes the prompt compiler raise
`KeyError('name')` instead of compiling a prompt, and `/generate-image`
then answers 500 with `str(KeyError('name'))` — so the `HouseContinuity`
accessors do not all use named defaults. -/
theorem c1_counterexample :
    buildPrompt "living room" "Modern style" "" (some hcNoName) =
      .error (.keyError "name") ∧
    generate_image (baseReq none (.parsed (some hcNoName)) (goodAnalysis saExample) goodGen) =
      ⟨500, .errorBody "\x27name\x27"⟩ := by
  exact ⟨rfl, rfl⟩

/-- C1 (amended): among the `HouseContinuity` accessors only `flooringNote`
has a named default — a record with `name`, `roomsStaged`, `designDNA` and
the five core design-DNA fields present always compiles (with or without
`flooringNote`), while dropping `name`, a core DNA field, or `designDNA`
raises the corresponding `KeyError`. -/
theorem c1_flooring_default_and_required_keys
    (house_name : String) (rooms : Int) (pc ac wt mf ts : String)
    (fn : Option String) (rc sc ctx : String) (ex ex2 : Bool) :
    buildPrompt rc sc ctx (some ⟨some house_name, some rooms,
        some ⟨some pc, some ac, some wt, some mf, some ts, fn, ex2⟩, ex⟩) =
      .ok (continuityTemplate rc sc ctx house_name rooms pc ac wt mf ts fn) ∧
    buildPrompt rc sc ctx (some ⟨none, some rooms,
        some ⟨some pc, some ac, some wt, some mf, some ts, fn, ex2⟩, ex⟩) =
      .error (.keyError "name") ∧
    buildPrompt rc sc ctx (some ⟨some house_name, some rooms,
        some ⟨none, some ac, some wt, some mf, some ts, fn, ex2⟩, ex⟩) =
      .error (.keyError "primaryColors") ∧
    buildPrompt rc sc ctx (some ⟨some house_name, some rooms, none, ex⟩) =
      .error (.keyError "designDNA") := by
  exact ⟨rfl, rfl, rfl, rfl⟩

/-! ## Claim C4 -/

/-- C4: the ten allow-listed aspect ratios pass through unchanged and every
other string is silently replaced by "4:3" (including "7:3", "" and
"16:10"); the allow-list is exactly the ten claimed values. -/
theorem c4_aspect_ratio_allowlist (s : String) :
    (validRatios.contains s = true → normalizeAspectRatio s = s) ∧
    (validRatios.contains s = false → normalizeAspectRatio s = "4:3") ∧
    validRatios = ["1:1", "2:3", "3:2", "3:4", "4:3", "4:5", "5:4", "9:16", "16:9", "21:9"] ∧
    normalizeAspectRatio "7:3" = "4:3" ∧
    normalizeAspectRatio "" = "4:3" ∧
    normalizeAspectRatio "16:10" = "4:3" := by
  refine ⟨?_, ?_, rfl, by decide, by decide, by decide⟩
  · intro h
    simp only [normalizeAspectRatio, h]
    simp
  · intro h
    simp only [normalizeAspectRatio, h]
    simp

/-- C4 witness: an allow-listed value passes through, "7:3" is replaced. -/
theorem c4_witness :
    normalizeAspectRatio "1:1" = "1:1" ∧ normalizeAspectRatio "7:3" = "4:3" :=
  ⟨(c4_aspect_ratio_allowlist "1:1").1 (by decide),
   (c4_aspect_ratio_allowlist "7:3").2.1 (by decide)⟩

/-! ## Claim C9 -/

theorem ends_webp_not_png (s : String) :
    strEndsWith s ".webp" = true → strEndsWith s ".png" = false := by
  intro h
  cases hp : strEndsWith s ".png"
  · rfl
  · exfalso
    unfold strEndsWith at h hp
    rw [List.isSuffixOf] at h hp
    rw [List.isPrefixOf_iff_prefix] at h hp
    cases hr : s.toList.reverse with
    | nil =>
      rw [hr] at h
      exact absurd (List.prefix_nil.mp h) (by decide)
    | cons c t =>
      rw [hr] at h hp
      obtain ⟨hc1, -⟩ := List.cons_prefix_cons.mp h
      obtain ⟨hc2, -⟩ := List.cons_prefix_cons.mp hp
      rw [← hc1] at hc2
      exact absurd hc2 (by decide)

/-- C9: media sniffing always yields one of the four MIME strings, by
case-insensitive suffix match with `.png` first, `.webp` second and
`image/jpeg` for everything else (including `.jpg`, `.jpeg`, no extension
and the empty filename); `image/gif` is in the output type but unreachable. -/
theorem c9_media_sniffer (filename : String) :
    (sniffMime filename = "image/jpeg" ∨ sniffMime filename = "image/png" ∨
      sniffMime filename = "image/webp" ∨ sniffMime filename = "image/gif") ∧
    (strEndsWith (strLower filename) ".png" = true → sniffMime filename = "image/png") ∧
    (strEndsWith (strLower filename) ".webp" = true → sniffMime filename = "image/webp") ∧
    (strEndsWith (strLower filename) ".png" = false →
      strEndsWith (strLower filename) ".webp" = false →
      sniffMime filename = "image/jpeg") ∧
    sniffMime "room.PNG" = "image/png" ∧
    sniffMime "room.WebP" = "image/webp" ∧
    sniffMime "room.jpg" = "image/jpeg" ∧
    sniffMime "room.jpeg" = "image/jpeg" ∧
    sniffMime "" = "image/jpeg" ∧
    sniffMime "room" = "image/jpeg" ∧
    sniffMime "x.gif" = "image/jpeg" := by
  refine ⟨?_, ?_, ?_, ?_, by decide, by decide, by decide, by decide, by decide,
    by decide, by decide⟩
  · unfold sniffMime
    cases h1 : strEndsWith (strLower filename) ".png" <;>
      cases h2 : strEndsWith (strLower filename) ".webp" <;> simp [h1, h2]
  · intro h
    simp [sniffMime, h]
  · intro h
    have hp := ends_webp_not_png _ h
    simp [sniffMime, h, hp]
  · intro h1 h2
    simp [sniffMime, h1, h2]

/-- C9 witness: the three suffix classes at concrete filenames. -/
theorem c9_witness :
    sniffMime "a.png" = "image/png" ∧ sniffMime "b.webp" = "image/webp" ∧
    sniffMime "c.txt" = "image/jpeg" :=
  ⟨(c9_media_sniffer "a.png").2.1 (by decide),
   (c9_media_sniffer "b.webp").2.2.1 (by decide),
   (c9_media_sniffer "c.txt").2.2.2.1 (by decide) (by decide)⟩

/-! ## Claim C5 -/

/-- C5 counterexample: the JSON text `{}` parses to a present but *empty*
house-continuity record, which is Python-falsy, so `generate_image` uses the
plain template (no continuity marker) although house_continuity was
supplied — presence alone does not select the continuity template. -/
theorem c5_counterexample :
    buildPrompt "living room" "Modern style" "" (some hcEmpty) =
      .ok (plainTemplate "living room" "Modern style" "") ∧
    strContains contMarker (plainTemplate "living room" "Modern style" "") = false := by
  exact ⟨rfl, by decide⟩

/-- C5 (amended): when house_continuity is present as a *non-empty* record
(with its required fields), the compiled prompt is the continuity template,
which verbatim contains the supplied design-DNA values, the flooring note
when supplied non-empty, the house name and the count of previously staged
rooms; when house_continuity is absent the plain template is used; the two
templates are mutually exclusive, distinguishable by the marker phrases
"HOUSE CONTINUITY MODE" (continuity only) and "Generate the virtually
staged version of this room." (plain only). -/
theorem c5_template_exclusivity (rc sc ctx house_name : String) (rooms : Int)
    (pc ac wt mf ts fs : String) (fn : Option String) (ex ex2 : Bool) :
    buildPrompt rc sc ctx (some ⟨some house_name, some rooms,
        some ⟨some pc, some ac, some wt, some mf, some ts, fn, ex2⟩, ex⟩) =
      .ok (continuityTemplate rc sc ctx house_name rooms pc ac wt mf ts fn) ∧
    buildPrompt rc sc ctx none = .ok (plainTemplate rc sc ctx) ∧
    strContains pc (continuityTemplate rc sc ctx house_name rooms pc ac wt mf ts fn) = true ∧
    strContains ac (continuityTemplate rc sc ctx house_name rooms pc ac wt mf ts fn) = true ∧
    strContains wt (continuityTemplate rc sc ctx house_name rooms pc ac wt mf ts fn) = true ∧
    strContains mf (continuityTemplate rc sc ctx house_name rooms pc ac wt mf ts fn) = true ∧
    strContains ts (continuityTemplate rc sc ctx house_name rooms pc ac wt mf ts fn) = true ∧
    strContains house_name
      (continuityTemplate rc sc ctx house_name rooms pc ac wt mf ts fn) = true ∧
    strContains (toString rooms)
      (continuityTemplate rc sc ctx house_name rooms pc ac wt mf ts fn) = true ∧
    (fs ≠ "" → strContains ("- Flooring Note: " ++ fs)
      (continuityTemplate rc sc ctx house_name rooms pc ac wt mf ts (some fs)) = true) ∧
    strContains contMarker
      (continuityTemplate rc sc ctx house_name rooms pc ac wt mf ts fn) = true ∧
    strContains plainMarker (plainTemplate rc sc ctx) = true ∧
    strContains plainMarker
      (continuityTemplate "living room" "Modern style" "" "Maple House" 3
        "warm whites" "sage green" "light oak" "brushed brass" "linen" none) = false ∧
    strContains contMarker (plainTemplate "living room" "Modern style" "") = false := by
  refine ⟨rfl, rfl, ?_, ?_, ?_, ?_, ?_, ?_, ?_, ?_, ?_, ?_, by decide, by decide⟩
  · simp only [continuityTemplate]
    repeat first
    | exact strContains_append_right _ (strContains_self _)
    | apply strContains_append_left
  · simp only [continuityTemplate]
    repeat first
    | exact strContains_append_right _ (strContains_self _)
    | apply strContains_append_left
  · simp only [continuityTemplate]
    repeat first
    | exact strContains_append_right _ (strContains_self _)
    | apply strContains_append_left
  · simp only [continuityTemplate]
    repeat first
    | exact strContains_append_right _ (strContains_self _)
    | apply strContains_append_left
  · simp only [continuityTemplate]
    repeat first
    | exact strContains_append_right _ (strContains_self _)
    | apply strContains_append_left
  · simp only [continuityTemplate]
    repeat first
    | exact strContains_append_right _ (strContains_self _)
    | apply strContains_append_left
  · simp only [continuityTemplate]
    repeat first
    | exact strContains_append_right _ (strContains_self _)
    | apply strContains_append_left
  · intro hfs
    have hp : optStrTruthy (some fs) = true := by
      simp [optStrTruthy, hfs]
    simp only [continuityTemplate, hp, Option.getD_some, if_true]
    repeat first
    | exact strContains_append_right _ (strContains_self _)
    | apply strContains_append_left
  · exact strContains_trans
      (by decide : strContains contMarker "\n\nHOUSE CONTINUITY MODE - \"" = true)
      (by
        simp only [continuityTemplate]
        repeat first
        | exact strContains_append_right _ (strContains_self _)
        | apply strContains_append_left)
  · simp only [plainTemplate]
    exact strContains_append_right _ (by decide)

/-- C5 witness: the flooring-note clause at a concrete non-empty note. -/
theorem c5_witness :
    strContains ("- Flooring Note: " ++ "wide plank oak")
      (continuityTemplate "living room" "Modern style" "" "Maple House" 3
        "warm whites" "sage green" "light oak" "brushed brass" "linen"
        (some "wide plank oak")) = true :=
  ((c5_template_exclusivity "living room" "Modern style" "" "Maple House" 3
      "warm whites" "sage green" "light oak" "brushed brass" "linen"
      "wide plank oak" none false false).2.2.2.2.2.2.2.2.2.1) (by decide)

/-! ## Claim C6 -/

/-- C6 counterexample: for an unrecognized room tag, `/generate-image` falls
back to the bare literal "living room" (and style falls back to
"Modern style"), not to the LIVING/MODERN *catalog entries*, so its prompt
does not contain the default catalog phrase as the claim states. -/
theorem c6_counterexample :
    dictGet ROOM_CONTEXT "GARAGE" "living room" = "living room" ∧
    dictGet ROOM_CONTEXT "LIVING" "" = "living room - welcoming conversation area" ∧
    strContains "living room - welcoming conversation area"
      (plainTemplate (dictGet ROOM_CONTEXT "GARAGE" "living room")
        (dictGet STYLE_CONTEXT "MODERN" "Modern style") "") = false ∧
    strContains "Modern: Clean lines, neutral palette, functional furniture, glass/steel/concrete"
      (plainTemplate (dictGet ROOM_CONTEXT "GARAGE" "living room")
        (dictGet STYLE_CONTEXT "GOTHIC" "Modern style") "") = false := by
  exact ⟨rfl, rfl, by decide, by decide⟩

/-- C6 (amended): both prompt builders always embed a room phrase and a
style phrase and never fail on unknown tags; recognized tags yield their
catalog entry in both endpoints, but the fallbacks differ — `/stage` falls
back to the LIVING and MODERN catalog entries while `/generate-image` falls
back to the bare literals "living room" and "Modern style". -/
theorem c6_catalog_fallbacks (room_type style ctx : String) :
    strContains (dictGet ROOM_CONTEXT room_type (dictGet ROOM_CONTEXT "LIVING" ""))
      (stagePrompt (dictGet ROOM_CONTEXT room_type (dictGet ROOM_CONTEXT "LIVING" ""))
        (dictGet STYLE_CONTEXT style (dictGet STYLE_CONTEXT "MODERN" ""))) = true ∧
    strContains (dictGet STYLE_CONTEXT style (dictGet STYLE_CONTEXT "MODERN" ""))
      (stagePrompt (dictGet ROOM_CONTEXT room_type (dictGet ROOM_CONTEXT "LIVING" ""))
        (dictGet STYLE_CONTEXT style (dictGet STYLE_CONTEXT "MODERN" ""))) = true ∧
    strContains (dictGet ROOM_CONTEXT room_type "living room")
      (plainTemplate (dictGet ROOM_CONTEXT room_type "living room")
        (dictGet STYLE_CONTEXT style "Modern style") ctx) = true ∧
    strContains (dictGet STYLE_CONTEXT style "Modern style")
      (plainTemplate (dictGet ROOM_CONTEXT room_type "living room")
        (dictGet STYLE_CONTEXT style "Modern style") ctx) = true ∧
    (ROOM_CONTEXT.find? (fun p => p.1 == room_type) = none →
      dictGet ROOM_CONTEXT room_type (dictGet ROOM_CONTEXT "LIVING" "") =
        "living room - welcoming conversation area" ∧
      dictGet ROOM_CONTEXT room_type "living room" = "living room") ∧
    (STYLE_CONTEXT.find? (fun p => p.1 == style) = none →
      dictGet STYLE_CONTEXT style (dictGet STYLE_CONTEXT "MODERN" "") =
        "Modern: Clean lines, neutral palette, functional furniture, glass/steel/concrete" ∧
      dictGet STYLE_CONTEXT style "Modern style" = "Modern style") ∧
    (∀ v, ROOM_CONTEXT.find? (fun p => p.1 == room_type) = some v →
      dictGet ROOM_CONTEXT room_type (dictGet ROOM_CONTEXT "LIVING" "") = v.2 ∧
      dictGet ROOM_CONTEXT room_type "living room" = v.2) ∧
    (∀ v, STYLE_CONTEXT.find? (fun p => p.1 == style) = some v →
      dictGet STYLE_CONTEXT style (dictGet STYLE_CONTEXT "MODERN" "") = v.2 ∧
      dictGet STYLE_CONTEXT style "Modern style" = v.2) := by
  refine ⟨?_, ?_, ?_, ?_, ?_, ?_, ?_, ?_⟩
  · simp only [stagePrompt]
    repeat first
    | exact strContains_append_right _ (strContains_self _)
    | apply strContains_append_left
  · simp only [stagePrompt]
    repeat first
    | exact strContains_append_right _ (strContains_self _)
    | apply strContains_append_left
  · simp only [plainTemplate]
    repeat first
    | exact strContains_append_right _ (strContains_self _)
    | apply strContains_append_left
  · simp only [plainTemplate]
    repeat first
    | exact strContains_append_right _ (strContains_self _)
    | apply strContains_append_left
  · intro h
    constructor
    · simp only [dictGet, h]
      rfl
    · simp only [dictGet, h]
  · intro h
    constructor
    · simp only [dictGet, h]
      rfl
    · simp only [dictGet, h]
  · intro v hv
    constructor
    · simp only [dictGet, hv]
    · simp only [dictGet, hv]
  · intro v hv
    constructor
    · simp only [dictGet, hv]
    · simp only [dictGet, hv]

/-- C6 witness: unrecognized tags hit the two different fallbacks, and a
recognized tag yields its catalog entry. -/
theorem c6_witness :
    (dictGet ROOM_CONTEXT "GARAGE" (dictGet ROOM_CONTEXT "LIVING" "") =
      "living room - welcoming conversation area" ∧
     dictGet ROOM_CONTEXT "GARAGE" "living room" = "living room") ∧
    (dictGet STYLE_CONTEXT "BEDROOM" (dictGet STYLE_CONTEXT "MODERN" "") =
      "Modern: Clean lines, neutral palette, functional furniture, glass/steel/concrete" ∧
     dictGet STYLE_CONTEXT "BEDROOM" "Modern style" = "Modern style") ∧
    (dictGet ROOM_CONTEXT "BEDROOM" (dictGet ROOM_CONTEXT "LIVING" "") =
      "bedroom - serene retreat" ∧
     dictGet ROOM_CONTEXT "BEDROOM" "living room" = "bedroom - serene retreat") :=
  ⟨(c6_catalog_fallbacks "GARAGE" "MODERN" "").2.2.2.2.1 (by decide),
   (c6_catalog_fallbacks "LIVING" "BEDROOM" "").2.2.2.2.2.1 (by decide),
   (c6_catalog_fallbacks "BEDROOM" "MODERN" "").2.2.2.2.2.2.1
     ("BEDROOM", "bedroom - serene retreat") (by decide)⟩

/-! ## Claim C2 -/

/-- C2 (code bug): `analyze_scene` is meant to return the "analysis
unavailable" outcome (`None`) on every failure, and does so for a non-200
response with a parseable body and for an absent candidate structure — the
HTTP-500 scenario of the spec indeed still answers 200 without a
`scene_analysis` key.  But on a timeout, or on a malformed JSON body of the
envelope, the exception is raised before the function-local `import json`
has run, so evaluating the handler clause `except json.JSONDecodeError`
raises `UnboundLocalError`, which escapes `analyze_scene`; `/generate-image`
then answers 500 instead of degrading, contradicting the code's own comment
"Return None if analysis fails, generation will proceed without it". -/
theorem c2_analysis_failure_bug :
    analyzeScene .timeout = .error .unboundLocalJson ∧
    analyzeScene (.resp 200 (.malformed "Expecting value: line 1 column 1 (char 0)")) =
      .error .unboundLocalJson ∧
    generate_image (baseReq none .absent .timeout goodGen) =
      ⟨500, .errorBody PyExc.unboundLocalJson.message⟩ ∧
    analyzeScene (.resp 500 (.envelope [])) = .ok none ∧
    generate_image (baseReq none .absent (.resp 500 (.envelope [])) goodGen) =
      ⟨200, .successBody ("data:image/png;base64," ++ "IMG") false⟩ := by
  exact ⟨rfl, rfl, rfl, rfl, rfl⟩

/-! ## Claim C7 -/

/-- C7 counterexample: a well-formed request whose `house_continuity` form
field is not valid JSON is answered with HTTP 500 (the `json.loads`
exception falls through to the generic `except Exception` handler), not
with a 4xx client-error status. -/
theorem c7_counterexample :
    generate_image (baseReq none (.malformed "Expecting value: line 1 column 1 (char 0)")
        (goodAnalysis saExample) goodGen) =
      ⟨500, .errorBody "Expecting value: line 1 column 1 (char 0)"⟩ ∧
    ¬(400 ≤ (generate_image (baseReq none
        (.malformed "Expecting value: line 1 column 1 (char 0)")
        (goodAnalysis saExample) goodGen)).status ∧
      (generate_image (baseReq none
        (.malformed "Expecting value: line 1 column 1 (char 0)")
        (goodAnalysis saExample) goodGen)).status < 500) := by
  exact ⟨rfl, by decide⟩

/-- C7 (amended): for every request with a valid image whose
`house_continuity` form field is a non-JSON string, `/generate-image`
answers 500 with the JSON parse-error message as the error body (a
descriptive message, but an internal-error status, not 4xx), regardless of
the other form fields and of the upstream outcomes. -/
theorem c7_invalid_json_yields_500 (msg filename : String)
    (rt st ea ar : Option String) (ao : AnalysisCallOutcome) (go : GenCallOutcome) :
    generate_image ⟨true, true, filename, rt, st, ea, ar, .malformed msg, ao, go⟩ =
      ⟨500, .errorBody msg⟩ :=
  rfl

/-! ## Claim C8 -/

theorem c8_core (go : GenCallOutcome) :
    generateImageCore (baseReq none .absent (goodAnalysis saExample) go) =
      (match go with
       | .timeout => .error .timeoutExc
       | .resp status body =>
         if status != 200 then
           match body with
           | .malformed msg => .error (.jsonDecodeError msg)
           | .envelope errorMessage _ =>
             .ok ⟨status, .errorBody ("Gemini API error: " ++ errorMessage.getD "Unknown error")⟩
         else
           match body with
           | .malformed msg => .error (.jsonDecodeError msg)
           | .envelope _ [] => .ok ⟨500, .errorBody "No image generated"⟩
           | .envelope _ (c :: _) =>
             match findInline c.parts with
             | some data =>
               .ok ⟨200, .successBody ("data:image/png;base64," ++ data) true⟩
             | none => .ok ⟨500, .errorBody "No image in response"⟩) :=
  rfl

/-- C8: a non-200 upstream generation response is surfaced with the same
status code and the remote error message; a timeout becomes a distinct 504
whose message mentions the timeout; and a 200 upstream response without any
inline-image part (no candidates, or candidates whose parts hold no
`inlineData`) is reported as a 500 processing failure, not a 4xx. -/
theorem c8_generation_error_paths (status : Nat) (emsg : Option String)
    (parts : List GenPart) (hstatus : status ≠ 200) (hfi : findInline parts = none) :
    generate_image (baseReq none .absent (goodAnalysis saExample)
        (.resp status (.envelope emsg []))) =
      ⟨status, .errorBody ("Gemini API error: " ++ emsg.getD "Unknown error")⟩ ∧
    generate_image (baseReq none .absent (goodAnalysis saExample) .timeout) =
      ⟨504, .errorBody "Image generation timed out (try again)"⟩ ∧
    strContains "timed out" "Image generation timed out (try again)" = true ∧
    generate_image (baseReq none .absent (goodAnalysis saExample)
        (.resp 200 (.envelope emsg []))) =
      ⟨500, .errorBody "No image generated"⟩ ∧
    generate_image (baseReq none .absent (goodAnalysis saExample)
        (.resp 200 (.envelope emsg [⟨parts⟩]))) =
      ⟨500, .errorBody "No image in response"⟩ := by
  have hb : (status != 200) = true := by simpa using hstatus
  refine ⟨?_, rfl, by decide, rfl, ?_⟩
  · unfold generate_image
    rw [c8_core]
    simp only [hb]
    rfl
  · unfold generate_image
    rw [c8_core]
    simp only [hfi]
    rfl

/-- C8 witness: a 503 with a remote message is passed through, and a 200
whose parts hold no image yields the 500 "No image in response". -/
theorem c8_witness :
    generate_image (baseReq none .absent (goodAnalysis saExample)
        (.resp 503 (.envelope (some "Resource exhausted") []))) =
      ⟨503, .errorBody ("Gemini API error: " ++
        (some "Resource exhausted").getD "Unknown error")⟩ ∧
    generate_image (baseReq none .absent (goodAnalysis saExample)
        (.resp 200 (.envelope (some "Resource exhausted") [⟨[.nonImage]⟩]))) =
      ⟨500, .errorBody "No image in response"⟩ :=
  ⟨(c8_generation_error_paths 503 (some "Resource exhausted") [.nonImage]
      (by decide) rfl).1,
   (c8_generation_error_paths 503 (some "Resource exhausted") [.nonImage]
      (by decide) rfl).2.2.2.2⟩

/-! ## Claim C10 -/

/-- C10: scene analysis is performed iff the `enable_analysis` form value
(defaulting to "true" when absent) equals "true" after lowercasing; the
success response carries a `scene_analysis` key exactly in that case, and
values such as "1", "yes" or "True " (trailing blank) silently disable the
analysis without an error while "TRUE" and an absent field enable it. -/
theorem c10_enable_analysis_gate (e : Option String) :
    generate_image (baseReq e .absent (goodAnalysis saExample) goodGen) =
      ⟨200, .successBody ("data:image/png;base64," ++ "IMG")
        (strLower (e.getD "true") == "true")⟩ ∧
    (strLower ((none : Option String).getD "true") == "true") = true ∧
    (strLower ((some "1" : Option String).getD "true") == "true") = false ∧
    (strLower ((some "yes" : Option String).getD "true") == "true") = false ∧
    (strLower ((some "True " : Option String).getD "true") == "true") = false ∧
    (strLower ((some "TRUE" : Option String).getD "true") == "true") = true ∧
    generate_image (baseReq (some "1") .absent (goodAnalysis saExample) goodGen) =
      ⟨200, .successBody ("data:image/png;base64," ++ "IMG") false⟩ := by
  refine ⟨?_, by decide, by decide, by decide, by decide, by decide, rfl⟩
  cases hb : strLower (e.getD "true") == "true"
  · simp only [generate_image, generateImageCore, baseReq, hb]
    rfl
  · simp only [generate_image, generateImageCore, baseReq, hb]
    rfl

end EstateStagePro
